import Mathlib

/-!
Shallow embedding of the job-orchestration core of the ppttovideo
repository (FastAPI + Celery + MinIO), together with theorems checking the
natural-language specification against the code.

The Python sources embedded here:
  * `app/crud.py`                       — job/task CRUD over SQLAlchemy rows
  * `app/workers/tasks_cpu.py`          — decompose, barrier, assembly
  * `app/workers/tasks_gpu.py`          — per-slide audio synthesis
  * `app/api/endpoints/dashboard.py`    — job cancellation endpoint
  * `app/services/cleanup_service.py`   — retention sweep
  * `app/services/tts/text_processing.py` — note-text tag parsing

Rows are modelled as records, the database as lists of rows, the object
store as a list of (bucket, key) pairs, wall-clock time as a natural
number of seconds, and external collaborators (broker, MinIO, renderer,
TTS engines) as explicit parameters describing their outcomes.
-/

namespace PptToVideo

/-- A row of `presentation_jobs` (`app/db/models.py` / `app/schemas.py`):
id, status, s3_pptx_path, s3_video_path, error_message, num_slides,
current_stage, created_at.  Timestamps are seconds as naturals. -/
structure PresentationJob where
  id : Nat
  status : String
  s3_pptx_path : String
  s3_video_path : Option String
  error_message : Option String
  num_slides : Option Nat
  current_stage : Option String
  created_at : Nat
  deriving Repr, DecidableEq

/-- A row of `job_tasks` (fields as used by `app/crud.py` and
`app/schemas.py`: the ORM class itself lives outside `src/`). -/
structure JobTask where
  id : Nat
  job_id : Nat
  task_type : String
  slide_number : Option Nat
  celery_task_id : Option String
  status : String
  progress_message : Option String
  error_message : Option String
  started_at : Option Nat
  completed_at : Option Nat
  deriving Repr, DecidableEq

/-- The relational store: job rows, task rows, and the next task id the
autoincrement column would assign. -/
structure DB where
  jobs : List PresentationJob
  tasks : List JobTask
  nextTaskId : Nat
  deriving Repr, DecidableEq

/-- Python truthiness of an optional string argument (`if video_path:`):
`None` and `""` are falsy. -/
def truthy : Option String → Bool
  | none => false
  | some s => !(s == "")

/-- `crud.get_presentation_job`: first job row with the given id. -/
def get_presentation_job (db : DB) (jobId : Nat) : Option PresentationJob :=
  db.jobs.find? (fun j => j.id == jobId)

/-- `crud.update_job_status`: unconditionally sets `status` on the job row
(if it exists) and sets `s3_video_path` / `error_message` /
`current_stage` only for truthy arguments.  The source has no check of
the current status. -/
def update_job_status (db : DB) (jobId : Nat) (status : String)
    (video_path error_message current_stage : Option String) : DB :=
  { db with jobs := db.jobs.map (fun j =>
      if j.id == jobId then
        { j with
          status := status
          s3_video_path := if truthy video_path then video_path else j.s3_video_path
          error_message := if truthy error_message then error_message else j.error_message
          current_stage := if truthy current_stage then current_stage else j.current_stage }
      else j) }

/-- `crud.update_job_slides`. -/
def update_job_slides (db : DB) (jobId : Nat) (numSlides : Nat) : DB :=
  { db with jobs := db.jobs.map (fun j =>
      if j.id == jobId then { j with num_slides := some numSlides } else j) }

/-- `crud.create_job_task`: inserts a fresh `pending` task row and returns
it together with the new store. -/
def create_job_task (db : DB) (jobId : Nat) (taskType : String)
    (slideNumber : Option Nat) (celeryTaskId : Option String) : JobTask × DB :=
  let t : JobTask :=
    { id := db.nextTaskId, job_id := jobId, task_type := taskType
      slide_number := slideNumber, celery_task_id := celeryTaskId
      status := "pending", progress_message := none, error_message := none
      started_at := none, completed_at := none }
  (t, { db with tasks := db.tasks ++ [t], nextTaskId := db.nextTaskId + 1 })

/-- The status-and-timestamp part of `crud.update_task_status`: on
`running` stamp `started_at` if unset, on any terminal status stamp
`completed_at`. -/
def applyTaskStatus (now : Nat) (t : JobTask) (st : String) : JobTask :=
  let t' := { t with status := st }
  if st == "running" && t.started_at == none then
    { t' with started_at := some now }
  else if st == "completed" || st == "failed" || st == "cancelled" then
    { t' with completed_at := some now }
  else t'

/-- The row-selection of `crud.update_task_status`: by `task_id`, or by
`celery_task_id` when no `task_id` is given. -/
def taskSelector (taskId : Option Nat) (celeryId : Option String) : JobTask → Bool :=
  match taskId, celeryId with
  | some i, _ => fun t => t.id == i
  | none, some c => fun t => t.celery_task_id == some c
  | none, none => fun _ => false

/-- The per-row update of `crud.update_task_status` on a selected row:
status (with timestamps), then the truthy optional fields. -/
def taskUpdateRow (now : Nat) (sel : JobTask → Bool)
    (status progress_message error_message set_celery_task_id : Option String)
    (t : JobTask) : JobTask :=
  if sel t then
    let t1 := match status with
      | some st => if st == "" then t else applyTaskStatus now t st
      | none => t
    let t2 := if truthy progress_message then
        { t1 with progress_message := progress_message } else t1
    let t3 := if truthy error_message then
        { t2 with error_message := error_message } else t2
    if truthy set_celery_task_id then
      { t3 with celery_task_id := set_celery_task_id } else t3
  else t

/-- `crud.update_task_status` (ids are unique in the store, so updating
every matching row coincides with updating the first). -/
def update_task_status (db : DB) (now : Nat)
    (taskId : Option Nat) (celeryId : Option String)
    (status progress_message error_message set_celery_task_id : Option String) : DB :=
  let f := taskUpdateRow now (taskSelector taskId celeryId)
    status progress_message error_message set_celery_task_id
  { db with tasks := db.tasks.map f }

/-- The terminal job statuses named by the cancel endpoint
(`dashboard.py` line 195). -/
def terminalStatuses : List String := ["completed", "failed", "cancelled"]

/-- The object store: a list of (bucket, object-name) pairs. -/
abbrev ObjectStore := List (String × String)

/-! ### Barrier (`tasks_cpu.assemble_video_with_deps`) -/

/-- The broker-side view of one referenced synthesis task: `readyAt` is
the time from which `AsyncResult.ready()` is true (`none`: it never
settles), `ok` is what `result.successful()` reports.  Readiness is
monotone, so the `completed_tasks` set accumulated by the Python loop is
exactly the set of tasks ready at the latest check. -/
structure BrokerTask where
  readyAt : Option Nat
  ok : Bool
  deriving Repr, DecidableEq

/-- One round of the polling `for` loop (`tasks_cpu.py` lines 141-151):
the number of referenced tasks that are ready at time `t`.  Both the
successful and the failed branch of the Python `if` add the task to
`completed_tasks`. -/
def checkSettled (tasks : List BrokerTask) (t : Nat) : Nat :=
  tasks.foldl (fun acc task =>
    match task.readyAt with
    | some u => if u ≤ t then (if task.ok then acc + 1 else acc + 1) else acc
    | none => acc) 0

/-- Whether one referenced task is settled (`result.ready()`) at time
`t`. -/
def settledBy (task : BrokerTask) (t : Nat) : Bool :=
  match task.readyAt with
  | some u => decide (u ≤ t)
  | none => false

/-- How the barrier's `while` loop exits: deadline expiry at elapsed time
`t`, or proceeding to assembly at elapsed time `t`.  `fuelOut` marks
exhaustion of the recursion fuel, never reached when the fuel exceeds
`maxWait / 10 + 2`. -/
inductive BarrierResult where
  | timeout (t : Nat)
  | proceed (t : Nat)
  | fuelOut
  deriving Repr, DecidableEq

/-- The `while len(completed_tasks) < len(audio_task_ids)` loop of
`assemble_video_with_deps` (lines 131-157): `t` is the elapsed time,
`completed` the size of the accumulated `completed_tasks` set, and every
`time.sleep(10)` advances `t` by 10. -/
def barrierLoop (tasks : List BrokerTask) (maxWait : Nat) :
    Nat → Nat → Nat → BarrierResult
  | 0, _, _ => .fuelOut
  | fuel + 1, t, completed =>
    if completed < tasks.length then
      if t > maxWait then .timeout t
      else
        let c := checkSettled tasks t
        if c < tasks.length then barrierLoop tasks maxWait fuel (t + 10) c
        else .proceed t
    else .proceed t

/-! ### Artifact naming -/

/-- `tasks_gpu.py` line 304: the object name the synthesised slide audio
is uploaded under (bucket `presentations`).  The path component is the
numeric `job_id`. -/
def audio_object_name (jobId slideNumber : Nat) : String :=
  toString jobId ++ "/audio/slide_" ++ toString slideNumber ++ ".wav"

/-- `tasks_cpu.py` line 209: the object-name prefix the assembler lists
audio under (bucket `presentations`).  Also the numeric `job_id`. -/
def assemblerAudioDir (jobId : Nat) : String :=
  toString jobId ++ "/audio/"

/-- Strip a character from both ends (Python `str.strip('/')`). -/
def stripChar (c : Char) (s : String) : String :=
  String.mk (((s.data.dropWhile (· == c)).reverse.dropWhile (· == c)).reverse)

/-- Python `str.split(sep)` for a one-character separator (keeps empty
chunks). -/
def splitOnChar (sep : Char) (cs : List Char) : List (List Char) :=
  cs.splitOnP (· == sep)

/-- Python `int(s)` on a string expected to be decimal digits; `none`
models `ValueError`. -/
def digitsToNat (cs : List Char) : Option Nat :=
  if !cs.isEmpty && cs.all Char.isDigit then
    some (cs.foldl (fun n c => n * 10 + (c.toNat - '0'.toNat)) 0)
  else none

/-- `sep.join(parts)` for a one-character separator. -/
def joinWith (c : Char) : List (List Char) → List Char
  | [] => []
  | [x] => x
  | x :: y :: ys => x ++ c :: joinWith c (y :: ys)

/-- Modelled from the spec: `job_uuid` is the basename of
`source_artifact_key` with the extension stripped (§6).  The code only
computes this quantity in `cleanup_service._cleanup_single_job`; the
audio upload path of `synthesize_audio` never does. -/
def jobUuidSpec (sourceKey : String) : String :=
  let stripped := ((sourceKey.data.dropWhile (· == '/')).reverse.dropWhile (· == '/')).reverse
  let filename := (splitOnChar '/' stripped).getLastD []
  String.mk ((splitOnChar '.' filename).headD [])

/-! ### Assembly (`tasks_cpu.assemble_video`) -/

/-- `tasks_cpu.py` line 216: recover the slide number from an audio
object name — basename, extension stripped (`os.path.splitext`), split
on `_`, component 1, `int(...)`.  `none` models the `int`/index
exception. -/
def slideNumOfAudio (objName : String) : Option Nat :=
  let base := (splitOnChar '/' objName.data).getLastD []
  let ps := splitOnChar '.' base
  let stem := if ps.length ≥ 2 then joinWith '.' ps.dropLast else base
  match (splitOnChar '_' stem).get? 1 with
  | some d => digitsToNat d
  | none => none

/-- `tasks_cpu.assemble_video` (lines 173-287).  Image downloads, clip
creation and muxing are external and modelled as succeeding; the audio
listing is read from `store`.  Control flow kept: first the job is set to
`assembling_video`; a slide-number parse failure or a missing audio file
raises, and the handler at line 284 sets the job `failed` with **no**
error message; otherwise the video is uploaded to `output/{job_id}.mp4`
and the job is set `completed` with that canonical path. -/
def assemble_video (db : DB) (store : ObjectStore)
    (imagePaths : List String) (jobId : Nat) : DB × ObjectStore :=
  let db1 := update_job_status db jobId "assembling_video" none none none
  let audioObjs := (store.filter (fun bk =>
      bk.1 == "presentations" &&
        (assemblerAudioDir jobId).data.isPrefixOf bk.2.data)).map (fun bk => bk.2)
  let nums := audioObjs.map slideNumOfAudio
  if nums.any (fun n => n.isNone) then
    (update_job_status db1 jobId "failed" none none none, store)
  else
    let audioSlides := nums.filterMap id
    let slides := (List.range imagePaths.length).map (· + 1)
    if slides.all (fun i => audioSlides.contains i) then
      (update_job_status db1 jobId "completed"
          (some ("/output/" ++ toString jobId ++ ".mp4")) none none,
        store ++ [("output", toString jobId ++ ".mp4")])
    else
      (update_job_status db1 jobId "failed" none none none, store)

/-- Outcome of one `assemble_video_with_deps` run. -/
structure AssembleRun where
  db : DB
  store : ObjectStore
  ranAssembly : Bool
  result : BarrierResult
  deriving Repr, DecidableEq

/-- `tasks_cpu.assemble_video_with_deps` (lines 107-170): run the barrier
from elapsed time 0 with an empty `completed_tasks` set; on deadline
expiry set the job `failed` with error
`f"Audio synthesis timeout after {max_wait_time}s"` and return without
assembling; otherwise call `assemble_video`. -/
def assemble_video_with_deps (db : DB) (store : ObjectStore)
    (imagePaths : List String) (jobId : Nat) (tasks : List BrokerTask)
    (maxWait fuel : Nat) : AssembleRun :=
  match barrierLoop tasks maxWait fuel 0 0 with
  | .timeout t =>
    { db := update_job_status db jobId "failed" none
        (some ("Audio synthesis timeout after " ++ toString maxWait ++ "s")) none
      store := store, ranAssembly := false, result := .timeout t }
  | .proceed t =>
    let p := assemble_video db store imagePaths jobId
    { db := p.1, store := p.2, ranAssembly := true, result := .proceed t }
  | .fuelOut =>
    { db := db, store := store, ranAssembly := false, result := .fuelOut }

/-! ### Dispatcher (`tasks_cpu.decompose_presentation`) -/

/-- The deterministic Celery id `decompose_presentation` assigns to the
synthesis task of slide `i` (line 78). -/
def synthCeleryId (jobId slideNumber : Nat) : String :=
  "synthesize_audio_" ++ toString jobId ++ "_" ++ toString slideNumber

/-- Result of one `decompose_presentation` run. -/
structure DecomposeRun where
  db : DB
  store : ObjectStore
  enqueuedGpu : List (Nat × Nat)
  scheduledAssemble : Option (List String × Nat × List String)
  deriving Repr, DecidableEq

/-- The per-slide fan-out loop of `decompose_presentation` (lines 73-89):
create an `audio_synthesis` task row for slide `i+1`, send the GPU
message, record the Celery id on the row. -/
def fanOutSlides (jobId now : Nat) : Nat → DB × List (Nat × Nat) → DB × List (Nat × Nat)
  | i, acc =>
    let p := create_job_task acc.1 jobId "audio_synthesis" (some (i + 1)) none
    let db' := update_task_status p.2 now (some p.1.id) none none none none
      (some (synthCeleryId jobId (i + 1)))
    (db', acc.2 ++ [(jobId, i + 1)])

/-- `tasks_cpu.decompose_presentation` (lines 15-104).  External inputs:
`slides` is the per-slide speaker-notes text of the deck, `imagePaths`
the renderer's `image_paths` answer (downloads, uploads and the HTTP call
itself are modelled as succeeding; their payloads are irrelevant to the
control flow).  The `len(image_paths) != num_slides` check raises, and
the handler at line 100 sets the job `failed` with **no** error message
and creates nothing further. -/
def decompose_presentation (db : DB) (store : ObjectStore) (now jobId : Nat)
    (slides : List String) (imagePaths : List String) : DecomposeRun :=
  match get_presentation_job db jobId with
  | none => { db := db, store := store, enqueuedGpu := [], scheduledAssemble := none }
  | some _ =>
    let p := create_job_task db jobId "decomposition" none none
    let db1 := update_task_status p.2 now (some p.1.id) none (some "running")
      (some "Extracting slides from presentation") none none
    let db2 := update_job_status db1 jobId "processing_slides" none none (some "decomposing")
    let numSlides := slides.length
    let db3 := update_job_slides db2 jobId numSlides
    let db4 := update_task_status db3 now (some p.1.id) none none
      (some ("Processing " ++ toString numSlides ++ " slides")) none none
    let store1 := store ++ (List.range numSlides).map (fun i =>
      ("presentations", toString jobId ++ "/notes/slide_" ++ toString (i + 1) ++ ".txt"))
    if imagePaths.length != numSlides then
      { db := update_job_status db4 jobId "failed" none none none
        store := store1, enqueuedGpu := [], scheduledAssemble := none }
    else
      let db5 := update_task_status db4 now (some p.1.id) none (some "completed")
        (some ("Successfully processed " ++ toString numSlides ++ " slides")) none none
      let fan := (List.range numSlides).foldl (fun acc i => fanOutSlides jobId now i acc) (db5, [])
      let db6 := update_job_status fan.1 jobId "synthesizing_audio" none none
        (some "synthesizing_audio")
      { db := db6, store := store1, enqueuedGpu := fan.2
        scheduledAssemble := some (imagePaths, jobId,
          (List.range numSlides).map (fun i => synthCeleryId jobId (i + 1))) }

/-! ### Text preprocessing (`services/tts/text_processing.py`, and the
copy inside `workers/tasks_gpu.py` that differs only in the emotion
alternation) -/

/-- Python whitespace class `\s` over ASCII, as used by `str.strip`,
`str.split` and the `re.sub(r'\s+', ...)` cleanups. -/
def isPySpace (c : Char) : Bool :=
  c == ' ' || c == '\t' || c == '\n' || c == '\r' || c == '\x0b' || c == '\x0c'

/-- `str.strip()`. -/
def pyStrip (s : String) : String :=
  String.mk (((s.data.dropWhile isPySpace).reverse.dropWhile isPySpace).reverse)

/-- `str.split()`: maximal runs of non-whitespace. -/
def pyWords (s : String) : List (List Char) :=
  (s.data.splitOnP isPySpace).filter (fun w => !w.isEmpty)

/-- Case-insensitive literal match: consume `pat` from the front of `cs`
(comparing lower-cased characters) and return the rest. -/
def matchCI : List Char → List Char → Option (List Char)
  | [], cs => some cs
  | _ :: _, [] => none
  | p :: ps, c :: cs => if p.toLower == c.toLower then matchCI ps cs else none

/-- Match the regex group `(alt₁|…|altₙ|[\d.]+)` (numeric branch only if
`numeric`) followed by a literal `]`, returning the lower-cased group
(Python takes `.group(1).lower()`) and the rest after `]`.  Alternatives
are tried in the order the regex lists them. -/
def matchValueAlts (alts : List String) (numeric : Bool) (cs : List Char) :
    Option (String × List Char) :=
  match alts with
  | kw :: rest =>
    match matchCI kw.data cs with
    | some (']' :: tail) => some (kw, tail)
    | _ => matchValueAlts rest numeric cs
  | [] =>
    if numeric then
      let ds := cs.takeWhile (fun c => c.isDigit || c == '.')
      match ds, cs.drop ds.length with
      | _ :: _, ']' :: tail => some (String.mk ds, tail)
      | _, _ => none
    else none

/-- `re.search(r'\[NAME:(alt|…|[\d.]+)\]', text, re.IGNORECASE)`:
leftmost position at which the whole pattern matches; returns the
lower-cased group. -/
def searchTag (tagName : String) (alts : List String) (numeric : Bool) :
    List Char → Option String
  | [] => none
  | c :: cs =>
    match matchCI ("[" ++ tagName ++ ":").data (c :: cs) with
    | some rest =>
      match matchValueAlts alts numeric rest with
      | some (v, _) => some v
      | none => searchTag tagName alts numeric cs
    | none => searchTag tagName alts numeric cs

/-- One step of `re.sub(r'\[NAME:[^\]]+\]', '', text, re.IGNORECASE)`:
at the current position, a match is the tag head, one or more non-`]`
characters, and `]`. -/
def matchLooseTag (pat : List Char) (cs : List Char) : Option (List Char) :=
  match matchCI pat cs with
  | some rest =>
    let content := rest.takeWhile (fun x => !(x == ']'))
    if content.isEmpty then none
    else
      match rest.drop content.length with
      | ']' :: tail => some tail
      | _ => none
  | none => none

/-- `re.sub(r'\[NAME:[^\]]+\]', '', text, re.IGNORECASE)`: delete every
non-overlapping match, scanning left to right.  `fuel` bounds the
recursion (each step consumes at least one character). -/
def removeTagAux (pat : List Char) : Nat → List Char → List Char
  | 0, cs => cs
  | _ + 1, [] => []
  | fuel + 1, c :: cs =>
    match matchLooseTag pat (c :: cs) with
    | some tail => removeTagAux pat fuel tail
    | none => c :: removeTagAux pat fuel cs

/-- Remove every `[NAME:…]` tag. -/
def removeTag (tagName : String) (cs : List Char) : List Char :=
  removeTagAux ("[" ++ tagName ++ ":").data cs.length cs

/-- `re.sub(r'\[PAUSE:(\d+)\]', lambda m: ',' * int(m.group(1)), …)`. -/
def replacePause : Nat → List Char → List Char
  | 0, cs => cs
  | _ + 1, [] => []
  | fuel + 1, c :: cs =>
    match matchCI "[PAUSE:".data (c :: cs) with
    | some rest =>
      let ds := rest.takeWhile Char.isDigit
      match ds, rest.drop ds.length with
      | _ :: _, ']' :: tail =>
        List.replicate ((String.mk ds).toNat?.getD 0) ',' ++ replacePause fuel tail
      | _, _ => c :: replacePause fuel cs
    | none => c :: replacePause fuel cs

/-- `re.sub(r'\[EMPHASIS:([^\]]+)\]', lambda m: m.group(1).upper(), …)`. -/
def replaceEmphasis : Nat → List Char → List Char
  | 0, cs => cs
  | _ + 1, [] => []
  | fuel + 1, c :: cs =>
    match matchCI "[EMPHASIS:".data (c :: cs) with
    | some rest =>
      let content := rest.takeWhile (fun x => !(x == ']'))
      if content.isEmpty then c :: replaceEmphasis fuel cs
      else
        match rest.drop content.length with
        | ']' :: tail => content.map Char.toUpper ++ replaceEmphasis fuel tail
        | _ => c :: replaceEmphasis fuel cs
    | none => c :: replaceEmphasis fuel cs

/-- `re.sub(r'\s+', ' ', text)`: every whitespace run becomes a single
space.  The flag records whether the previous character was whitespace. -/
def collapseWS : Bool → List Char → List Char
  | _, [] => []
  | prev, c :: cs =>
    if isPySpace c then
      if prev then collapseWS true cs else ' ' :: collapseWS true cs
    else c :: collapseWS false cs

/-- Python `float(v)` on a string of digits and dots, as a rational (the
engine's speed/pitch values are small decimals, where binary floats are
immaterial after clamping); `none` models `ValueError`. -/
def pyFloat? (v : String) : Option ℚ :=
  match splitOnChar '.' v.data with
  | [ip] => (digitsToNat ip).map (fun n => mkRat n 1)
  | [ip, fp] =>
    if ip.isEmpty && fp.isEmpty then none
    else
      let ipn := if ip.isEmpty then some 0 else digitsToNat ip
      let fpn := if fp.isEmpty then some 0 else digitsToNat fp
      match ipn, fpn with
      | some a, some b => some (mkRat (a * 10 ^ fp.length + b) (10 ^ fp.length))
      | _, _ => none
  | _ => none

/-- Python `max(0.5, min(2.0, q))`. -/
def clamp05to2 (q : ℚ) : ℚ := max (mkRat 1 2) (min (mkRat 2 1) q)

/-- The `[SPEED:…]` branch (`text_processing.py` lines 32-44): keywords
map to 0.7 / 1.3 / 1.0, numbers are clamped into [0.5, 2.0], a failing
`float` yields 1.0. -/
def speedOfVal (v : String) : ℚ :=
  if v == "slow" then mkRat 7 10
  else if v == "fast" then mkRat 13 10
  else if v == "normal" then 1
  else match pyFloat? v with
    | some q => clamp05to2 q
    | none => 1

/-- The `[PITCH:…]` branch (lines 50-62): low/high/normal map to
0.8 / 1.2 / 1.0, numbers are clamped into [0.5, 2.0]. -/
def pitchOfVal (v : String) : ℚ :=
  if v == "low" then mkRat 8 10
  else if v == "high" then mkRat 12 10
  else if v == "normal" then 1
  else match pyFloat? v with
    | some q => clamp05to2 q
    | none => 1

/-- The common body of the two `parse_note_text_tags` copies,
parameterised by the emotion alternation.  Returns
`(clean_text, emotion, speed, pitch)`. -/
def parse_core (emotionAlts : List String) (text : String) :
    String × String × ℚ × ℚ :=
  let cs0 := text.data
  let emotionFound := searchTag "EMOTION" emotionAlts false cs0
  let emotion := emotionFound.getD "neutral"
  let cs1 := if emotionFound.isSome then removeTag "EMOTION" cs0 else cs0
  let speedFound := searchTag "SPEED" ["slow", "normal", "fast"] true cs1
  let speed := (speedFound.map speedOfVal).getD 1
  let cs2 := if speedFound.isSome then removeTag "SPEED" cs1 else cs1
  let pitchFound := searchTag "PITCH" ["low", "normal", "high"] true cs2
  let pitch := (pitchFound.map pitchOfVal).getD 1
  let cs3 := if pitchFound.isSome then removeTag "PITCH" cs2 else cs2
  let cs4 := replacePause cs3.length cs3
  let cs5 := replaceEmphasis cs4.length cs4
  let cs6 := (((collapseWS false cs5).dropWhile isPySpace).reverse.dropWhile isPySpace).reverse
  (String.mk cs6, emotion, speed, pitch)

/-- `TextProcessor.parse_note_text_tags` of
`services/tts/text_processing.py` (emotion alternation
`excited|sad|angry|happy|neutral`). -/
def parse_note_text_tags (text : String) : String × String × ℚ × ℚ :=
  parse_core ["excited", "sad", "angry", "happy", "neutral"] text

/-- The `parse_note_text_tags` copy inside `workers/tasks_gpu.py`
(emotion alternation `happy|sad|excited|calm|angry|neutral`); this is the
copy `synthesize_audio` calls. -/
def parse_note_text_tags_gpu (text : String) : String × String × ℚ × ℚ :=
  parse_core ["happy", "sad", "excited", "calm", "angry", "neutral"] text

/-! ### Synthesis worker (`tasks_gpu.synthesize_audio`) -/

/-- The audio artifact a synthesis run produces: either silence of a
given number of samples at a sample rate, or engine speech (cloned or
base) for the processed text. -/
inductive Audio where
  | silence (samples rate : Nat)
  | voiced (cloned : Bool) (text : String)
  deriving Repr, DecidableEq

/-- Outcomes of the external calls `synthesize_audio` makes, each an
`Except` whose error is the exception text. -/
structure SynthEnv where
  jobPresent : Bool
  refIsBuiltin : Bool
  refFetch : Except String Unit
  noteFetch : Except String String
  meloInitOk : Bool
  tts : Except String Unit
  clone : Except String Unit
  upload : Except String Unit
  deriving Repr

/-- The inner `try`/`except` of `synthesize_audio` (lines 192-301): with
MeloTTS available, a `tts_to_file` failure is re-raised (line 276) into
the handler at line 296 which writes **5 seconds** of silence at 24 kHz;
a cloning failure falls back to the base audio (line 262); built-in
speakers copy the base audio; with MeloTTS unavailable the fallback is
silence of the word-count-estimated duration (lines 278-294,
`max(3.0, words/150*60)` capped at 30 s, i.e. 0.4 s per word). -/
def synthInner (env : SynthEnv) (noteText : String) : Audio :=
  let processed := (parse_note_text_tags_gpu noteText).1
  if env.meloInitOk then
    match env.tts with
    | .error _ => Audio.silence (5 * 24000) 24000
    | .ok _ =>
      if env.refIsBuiltin then Audio.voiced false processed
      else
        match env.clone with
        | .ok _ => Audio.voiced true processed
        | .error _ => Audio.voiced false processed
  else
    let wc := (pyWords processed).length
    let estTenths := min 300 (max 30 (4 * wc))
    Audio.silence (estTenths * 2400) 24000

/-- Voice-reference resolution (lines 124-141, 156-178): built-in
speakers load a local embedding, otherwise the reference audio is
fetched; a fetch failure escapes. -/
def refResolve (env : SynthEnv) : Except String Unit :=
  match env.refIsBuiltin, env.refFetch with
  | true, _ => .ok ()
  | false, .ok _ => .ok ()
  | false, .error e => .error e

/-- The body of `synthesize_audio` up to the task-completed update
(lines 120-311), with exceptions as `Except` errors escaping to the
outer handler (line 345).  An empty-or-whitespace note becomes the
`[SILENCE]` sentinel; a `[SILENCE]` note yields 1 second of silence
(line 189). -/
def synthBody (env : SynthEnv) (jobId : Nat) : Except String Audio :=
  if !env.jobPresent then .error ("Job " ++ toString jobId ++ " not found.")
  else match refResolve env with
  | .error e => .error e
  | .ok _ =>
    match env.noteFetch with
    | .error e => .error e
    | .ok fetched =>
      let noteText := if pyStrip fetched == "" then "[SILENCE]" else fetched
      let audio :=
        if noteText == "[SILENCE]" || pyStrip noteText == "" then Audio.silence 24000 24000
        else synthInner env noteText
      match env.upload with
      | .ok _ => .ok audio
      | .error e => .error e

/-- Result of one `synthesize_audio` run. -/
structure SynthResult where
  db : DB
  store : ObjectStore
  uploaded : Option Audio
  retVal : Option String
  deriving Repr, DecidableEq

/-- `tasks_gpu.synthesize_audio` (lines 109-354): mark the task row
`running`; run the body; on success upload
`presentations/{job_id}/audio/slide_{n}.wav`, mark the task `completed`
with progress `f"Audio synthesis completed for slide {n}"`; on an
escaping exception `e`, mark the task `failed` with error `e` and the
job `failed` with error
`f"Audio synthesis failed for slide {n}: {e}"`.  The
`SoftTimeLimitExceeded` handler (lines 319-343) is a distinct path not
exercised by any claim and not modelled. -/
def synthesize_audio (db : DB) (store : ObjectStore) (now : Nat)
    (celeryId : String) (env : SynthEnv) (jobId slideNumber : Nat) : SynthResult :=
  let db0 := update_task_status db now none (some celeryId) (some "running")
    (some ("Starting audio synthesis for slide " ++ toString slideNumber)) none none
  match synthBody env jobId with
  | .ok audio =>
    let db1 := update_task_status db0 now none (some celeryId) (some "completed")
      (some ("Audio synthesis completed for slide " ++ toString slideNumber)) none none
    { db := db1
      store := store ++ [("presentations", audio_object_name jobId slideNumber)]
      uploaded := some audio
      retVal := some ("Audio for slide " ++ toString slideNumber ++ " of job " ++
        toString jobId ++ " created.") }
  | .error e =>
    let db1 := update_task_status db0 now none (some celeryId) (some "failed") none (some e) none
    let db2 := update_job_status db1 jobId "failed" none
      (some ("Audio synthesis failed for slide " ++ toString slideNumber ++ ": " ++ e)) none
    { db := db2, store := store, uploaded := none, retVal := none }

/-! ### Cancellation (`api/endpoints/dashboard.py cancel_job`) -/

/-- The per-task guard of the cancel loop (line 203): a truthy
`celery_task_id` and status `pending` or `running`. -/
def cancelVictim (jobId : Nat) (t : JobTask) : Bool :=
  t.job_id == jobId && truthy t.celery_task_id &&
    (t.status == "pending" || t.status == "running")

/-- `dashboard.cancel_job` (lines 188-225).  Errors are the
`HTTPException`s (status code, detail).  On success returns the new
store, the broker revokes issued — one per (app handle, Celery id), the
endpoint revoking on the default, CPU and GPU apps — and the
`cancelled_tasks` id list of the response.  The job row's `updated_at`
column is not modelled. -/
def cancel_job (db : DB) (now jobId : Nat) :
    Except (Nat × String) (DB × List (String × String) × List String) :=
  match get_presentation_job db jobId with
  | none => .error (404, "Job not found")
  | some j =>
    if terminalStatuses.contains j.status then
      .error (400, "Job cannot be cancelled in current state")
    else
      let victims := db.tasks.filter (cancelVictim jobId)
      let revokes := victims.foldl (fun acc t =>
        match t.celery_task_id with
        | some c => acc ++ [("default", c), ("cpu", c), ("gpu", c)]
        | none => acc) []
      let cancelledIds := victims.filterMap (fun t => t.celery_task_id)
      let db1 := { db with tasks := db.tasks.map (fun t =>
        if cancelVictim jobId t then
          { t with status := "cancelled", completed_at := some now }
        else t) }
      let db2 := { db1 with jobs := db1.jobs.map (fun x =>
        if x.id == jobId then
          { x with status := "cancelled", current_stage := some "cancelled" }
        else x) }
      .ok (db2, revokes, cancelledIds)

/-! ### Retention sweep (`services/cleanup_service.py`) -/

/-- `_delete_s3_file_safe`'s path parsing (lines 190-197):
`strip('/')` then `split('/', 1)`; `none` when there is no `/`. -/
def parseS3Path (p : String) : Option (String × String) :=
  let clean := stripChar '/' p
  if clean.data.contains '/' then
    some (String.mk (clean.data.takeWhile (fun c => !(c == '/'))),
      String.mk ((clean.data.dropWhile (fun c => !(c == '/'))).drop 1))
  else none

/-- `_delete_s3_file_safe`: delete the object named by a canonical path
if present; return the count deleted.  Object names are unique per
bucket in MinIO, so filtering out the pair removes one object. -/
def deleteFileSafe (store : ObjectStore) (s3Path : String) : ObjectStore × Nat :=
  match parseS3Path s3Path with
  | some bo =>
    if store.contains bo then (store.filter (fun bk => !(bk == bo)), 1)
    else (store, 0)
  | none => (store, 0)

/-- `_delete_s3_prefix_safe`: delete every object of `bucket` whose name
starts with `pfx`; return the count. -/
def deletePrefixSafe (store : ObjectStore) (bucket pfx : String) : ObjectStore × Nat :=
  let hit : String × String → Bool := fun bk =>
    bk.1 == bucket && pfx.data.isPrefixOf bk.2.data
  ((store.filter (fun bk => !hit bk)), (store.filter hit).length)

/-- `_cleanup_single_job` lines 142-147: the `pptx_uuid` extracted from
the job's source path (`strip('/')`, `split('/')`, need at least two
components, then the filename up to the first dot). -/
def pptxUuidOf (j : PresentationJob) : Option String :=
  if j.s3_pptx_path == "" then none
  else
    let parts := splitOnChar '/' (stripChar '/' j.s3_pptx_path).data
    if parts.length ≥ 2 then
      some (String.mk ((splitOnChar '.' (parts.getLastD [])).headD []))
    else none

/-- `_cleanup_single_job` (lines 127-176): delete the source artifact,
the video artifact, the `{job_id}/audio/` and `{job_id}/notes/` prefixes,
then the `{uuid}/images/` and `{uuid}/` prefixes, then the job row.
Returns the new stores and `files_deleted`. -/
def cleanupSingleJob (db : DB) (store : ObjectStore) (j : PresentationJob) :
    DB × ObjectStore × Nat :=
  let s1 := if j.s3_pptx_path == "" then (store, 0) else deleteFileSafe store j.s3_pptx_path
  let s2 := match j.s3_video_path with
    | some vp => if vp == "" then (s1.1, 0) else deleteFileSafe s1.1 vp
    | none => (s1.1, 0)
  let s3 := deletePrefixSafe s2.1 "presentations" (toString j.id ++ "/audio/")
  let s4 := deletePrefixSafe s3.1 "presentations" (toString j.id ++ "/notes/")
  let s5 := match pptxUuidOf j with
    | some u =>
      let a := deletePrefixSafe s4.1 "presentations" (u ++ "/images/")
      let b := deletePrefixSafe a.1 "presentations" (u ++ "/")
      (b.1, a.2 + b.2)
    | none => (s4.1, 0)
  let db' := { db with jobs := db.jobs.filter (fun x => !(x.id == j.id)) }
  (db', s5.1, s1.2 + s2.2 + s3.2 + s4.2 + s5.2)

/-- All (bucket, object) pairs `_cleanup_single_job` run on job `j` can
delete: its two canonical artifacts and the four per-job prefixes. -/
def coveredBy (j : PresentationJob) (bk : String × String) : Bool :=
  (parseS3Path j.s3_pptx_path == some bk) ||
  (match j.s3_video_path with
    | some vp => parseS3Path vp == some bk
    | none => false) ||
  (bk.1 == "presentations" &&
    ((toString j.id ++ "/audio/").data.isPrefixOf bk.2.data ||
     (toString j.id ++ "/notes/").data.isPrefixOf bk.2.data ||
     (match pptxUuidOf j with
      | some u => (u ++ "/images/").data.isPrefixOf bk.2.data ||
          (u ++ "/").data.isPrefixOf bk.2.data
      | none => false)))

/-- `cleanup_old_jobs` line 27: the default `status_filter`. -/
def sweepFilter (statusFilter : Option (List String)) : List String :=
  statusFilter.getD ["completed", "failed"]

/-- `datetime.utcnow() - timedelta(days=days_old)`, in seconds. -/
def cutoffDate (now daysOld : Nat) : Nat := now - daysOld * 86400

/-- The selection predicate of the sweep query: `created_at < cutoff`
and `status ∈ status_filter`. -/
def sweepPred (cutoff : Nat) (filt : List String) (j : PresentationJob) : Bool :=
  decide (j.created_at < cutoff) && filt.contains j.status

/-- The selection query shared by `cleanup_old_jobs` (lines 43-46) and
`get_cleanup_preview` (lines 266-269). -/
def selectOldJobs (db : DB) (cutoff : Nat) (filt : List String) : List PresentationJob :=
  db.jobs.filter (sweepPred cutoff filt)

/-- Result of one retention sweep. -/
structure CleanupRun where
  db : DB
  store : ObjectStore
  jobs_deleted : Nat
  files_deleted : Nat
  deriving Repr, DecidableEq

/-- One iteration of the `for job in jobs_to_cleanup` loop: clean one
job, bump the deletion counters. -/
def cleanupFoldStep (acc : DB × ObjectStore × Nat × Nat) (j : PresentationJob) :
    DB × ObjectStore × Nat × Nat :=
  let r := cleanupSingleJob acc.1 acc.2.1 j
  (r.1, r.2.1, acc.2.2.1 + 1, acc.2.2.2 + r.2.2)

/-- `CleanupService.cleanup_old_jobs` (lines 16-72): select, then delete
each selected job in turn (the embedded store operations do not raise,
so `errors` stays empty and every selected job is processed). -/
def cleanup_old_jobs (db : DB) (store : ObjectStore) (now daysOld : Nat)
    (statusFilter : Option (List String)) : CleanupRun :=
  let selected := selectOldJobs db (cutoffDate now daysOld) (sweepFilter statusFilter)
  let fin := selected.foldl cleanupFoldStep (db, store, 0, 0)
  { db := fin.1, store := fin.2.1, jobs_deleted := fin.2.2.1, files_deleted := fin.2.2.2 }

/-- `CleanupService.get_cleanup_preview` (lines 248-292): the count and
list of jobs the sweep would select; a pure read. -/
def get_cleanup_preview (db : DB) (now daysOld : Nat)
    (statusFilter : Option (List String)) : Nat × List PresentationJob :=
  let sel := selectOldJobs db (cutoffDate now daysOld) (sweepFilter statusFilter)
  (sel.length, sel)

/-! ### Concrete fixtures used by counterexamples and witnesses -/

/-- A fresh job row with the given id, status and creation time. -/
def jobRow (id : Nat) (status : String) (created : Nat) : PresentationJob :=
  { id := id, status := status, s3_pptx_path := "/ingest/abc.pptx"
    s3_video_path := none, error_message := none, num_slides := none
    current_stage := none, created_at := created }

/-- A task row with the given id, job, type, Celery id and status. -/
def taskRow (id jobId : Nat) (ttype : String) (celery : Option String)
    (status : String) : JobTask :=
  { id := id, job_id := jobId, task_type := ttype, slide_number := none
    celery_task_id := celery, status := status, progress_message := none
    error_message := none, started_at := none, completed_at := none }

/-- A store with one mid-flight job whose decomposition task has no
Celery id. -/
def dbC8 : DB :=
  ⟨[jobRow 1 "synthesizing_audio" 0], [taskRow 1 1 "decomposition" none "running"], 2⟩

/-- A store with one mid-flight job, an id-less running task, a
revocable running task and a settled task. -/
def dbC8w : DB :=
  ⟨[jobRow 4 "synthesizing_audio" 0],
    [taskRow 1 4 "decomposition" none "running",
      taskRow 2 4 "audio_synthesis" (some "a1") "running",
      taskRow 3 4 "audio_synthesis" (some "a2") "completed"], 4⟩

/-- Updating exactly the rows matched by `p` (with a map that keeps them
matched) commutes with looking a matched row up. -/
theorem find_of_map_matched {α : Type} (p : α → Bool) (f : α → α)
    (hp : ∀ a, p a = true → p (f a) = true) :
    ∀ (l : List α) (x : α), l.find? p = some x →
      (l.map (fun a => if p a then f a else a)).find? p = some (f x) := by
  intro l
  induction l with
  | nil => intro x h; simp [List.find?] at h
  | cons a l ih =>
    intro x h
    by_cases ha : p a = true
    · rw [List.find?_cons_of_pos _ ha] at h
      cases h
      simp only [List.map_cons, if_pos ha]
      exact List.find?_cons_of_pos _ (hp _ ha)
    · rw [List.find?_cons_of_neg _ ha] at h
      simp only [List.map_cons, if_neg ha]
      rw [List.find?_cons_of_neg _ ha]
      exact ih x h

theorem get_update_job_status (db : DB) (jobId : Nat) (st : String)
    (v e c : Option String) (j : PresentationJob)
    (h : get_presentation_job db jobId = some j) :
    get_presentation_job (update_job_status db jobId st v e c) jobId =
      some { j with
        status := st
        s3_video_path := if truthy v then v else j.s3_video_path
        error_message := if truthy e then e else j.error_message
        current_stage := if truthy c then c else j.current_stage } := by
  unfold get_presentation_job update_job_status at *
  exact find_of_map_matched _ _ (by intro a hpa; simpa using hpa) db.jobs j h

/-! ### C1 -/

/-- **C1, counterexample.**  The claim says terminal statuses are
absorbing under `update_job_status` and that a transition out of them is
rejected with an already-terminal signal.  In the code
(`crud.update_job_status`, lines 52-64) there is no status check at all:
on a job whose status is `completed`, an update to `failed` simply
overwrites the status. -/
theorem C1_terminal_not_absorbing_cex :
    (get_presentation_job { jobs := [jobRow 1 "completed" 0], tasks := [], nextTaskId := 1 }
        1).map PresentationJob.status = some "completed" ∧
    (get_presentation_job
        (update_job_status { jobs := [jobRow 1 "completed" 0], tasks := [], nextTaskId := 1 }
          1 "failed" none none none) 1).map PresentationJob.status = some "failed" := by
  constructor
  · rfl
  · rfl

/-- **C1, amended.**  `update_job_status` unconditionally overwrites the
status of an existing job — also when the current status is terminal
(`completed`, `failed`, `cancelled`); the code has no already-terminal
signal, so terminal states are not absorbing under status updates. -/
theorem C1_update_overwrites_terminal (db : DB) (jobId : Nat) (st : String)
    (j : PresentationJob) (h : get_presentation_job db jobId = some j)
    (hterm : j.status ∈ terminalStatuses) :
    (get_presentation_job (update_job_status db jobId st none none none) jobId).map
      PresentationJob.status = some st := by
  rw [get_update_job_status db jobId st none none none j h]
  rfl

/-- Witness for `C1_update_overwrites_terminal` at a concrete store. -/
theorem C1_update_overwrites_terminal_witness :
    (get_presentation_job
        (update_job_status { jobs := [jobRow 3 "cancelled" 0], tasks := [], nextTaskId := 1 }
          3 "completed" none none none) 3).map PresentationJob.status = some "completed" :=
  C1_update_overwrites_terminal
    { jobs := [jobRow 3 "cancelled" 0], tasks := [], nextTaskId := 1 }
    3 "completed" (jobRow 3 "cancelled" 0) (by rfl) (by decide)

/-! ### C3 -/

/-- **C3, counterexample.**  The claim says the synthesis worker uploads
slide audio under `presentations/{job_uuid}/audio/…` with `job_uuid` the
extension-stripped basename of the source key.  In the code
(`tasks_gpu.py` line 304) the key is built from the numeric `job_id`:
for job 7 with source `/ingest/abc.pptx` the upload key is
`7/audio/slide_1.wav`, not `abc/audio/slide_1.wav`. -/
theorem C3_audio_key_cex :
    audio_object_name 7 1 = "7/audio/slide_1.wav" ∧
    jobUuidSpec "/ingest/abc.pptx" = "abc" ∧
    audio_object_name 7 1 ≠ jobUuidSpec "/ingest/abc.pptx" ++ "/audio/slide_1.wav" ∧
    assemblerAudioDir 7 = "7/audio/" := by
  refine ⟨by rfl, by rfl, by decide, by rfl⟩

/-- **C3, amended.**  Both sides use the numeric job id: the worker
uploads slide `n` audio to key `{job_id}/audio/slide_{n}.wav` of bucket
`presentations`, and the assembler lists audio under the prefix
`{job_id}/audio/` of the same bucket, which is a prefix of every such
upload key — so the round trip is consistent, just not `job_uuid`-based. -/
theorem C3_audio_key_uses_job_id (jobId n : Nat) :
    audio_object_name jobId n =
      assemblerAudioDir jobId ++ ("slide_" ++ toString n ++ ".wav") := by
  unfold audio_object_name assemblerAudioDir
  apply String.ext
  simp [String.data_append]

/-! ### Barrier lemmas -/

theorem checkSettled_foldl (t : Nat) : ∀ (l : List BrokerTask) (acc : Nat),
    l.foldl (fun acc task =>
      match task.readyAt with
      | some u => if u ≤ t then (if task.ok then acc + 1 else acc + 1) else acc
      | none => acc) acc = acc + l.countP (fun task => settledBy task t) := by
  intro l
  induction l with
  | nil => intro acc; simp
  | cons a l ih =>
    intro acc
    rw [List.foldl_cons, ih, List.countP_cons]
    rcases ha : a.readyAt with _ | u
    · simp [settledBy, ha]
    · by_cases hu : u ≤ t
      · simp [settledBy, ha, hu]; omega
      · simp [settledBy, ha, hu]

theorem checkSettled_eq_countP (tasks : List BrokerTask) (t : Nat) :
    checkSettled tasks t = tasks.countP (fun task => settledBy task t) := by
  unfold checkSettled
  rw [checkSettled_foldl t tasks 0, Nat.zero_add]

theorem checkSettled_le (tasks : List BrokerTask) (t : Nat) :
    checkSettled tasks t ≤ tasks.length := by
  rw [checkSettled_eq_countP]
  exact List.countP_le_length _

theorem checkSettled_lt_of_unsettled (tasks : List BrokerTask) (t : Nat)
    (bt : BrokerTask) (hmem : bt ∈ tasks) (hbt : settledBy bt t = false) :
    checkSettled tasks t < tasks.length := by
  rw [checkSettled_eq_countP]
  have hle : tasks.countP (fun task => settledBy task t) ≤ tasks.length :=
    List.countP_le_length _
  have hne : tasks.countP (fun task => settledBy task t) ≠ tasks.length := by
    intro he
    have := List.countP_eq_length.mp he bt hmem
    simp [hbt] at this
  omega

theorem checkSettled_all_of_eq (tasks : List BrokerTask) (t : Nat)
    (h : checkSettled tasks t = tasks.length) :
    ∀ bt ∈ tasks, settledBy bt t = true := by
  rw [checkSettled_eq_countP] at h
  exact List.countP_eq_length.mp h

theorem barrierLoop_timeout_of_unsettled (tasks : List BrokerTask) (maxWait : Nat)
    (bt : BrokerTask) (hmem : bt ∈ tasks) (hnone : bt.readyAt = none) :
    ∀ (fuel t completed : Nat), 1 ≤ fuel → maxWait + 11 ≤ t + 10 * fuel →
      completed < tasks.length →
      ∃ t', barrierLoop tasks maxWait fuel t completed = .timeout t' := by
  intro fuel
  induction fuel with
  | zero => intro t completed h1; omega
  | succ n ih =>
    intro t completed _ hbound hcomp
    by_cases ht : t > maxWait
    · exact ⟨t, by simp [barrierLoop, hcomp, ht]⟩
    · have hc : checkSettled tasks t < tasks.length :=
        checkSettled_lt_of_unsettled tasks t bt hmem (by simp [settledBy, hnone])
      have h1n : 1 ≤ n := by omega
      obtain ⟨t', ht'⟩ := ih (t + 10) (checkSettled tasks t) h1n (by omega) hc
      exact ⟨t', by simp only [barrierLoop, if_pos hcomp, if_neg ht, if_pos hc]; exact ht'⟩

theorem barrierLoop_proceed_settled (tasks : List BrokerTask) (maxWait : Nat) :
    ∀ (fuel t completed t' : Nat), completed < tasks.length →
      barrierLoop tasks maxWait fuel t completed = .proceed t' →
      checkSettled tasks t' = tasks.length := by
  intro fuel
  induction fuel with
  | zero => intro t completed t' _ h; simp [barrierLoop] at h
  | succ n ih =>
    intro t completed t' hcomp h
    rw [barrierLoop, if_pos hcomp] at h
    by_cases ht : t > maxWait
    · rw [if_pos ht] at h; cases h
    · rw [if_neg ht] at h
      by_cases hc : checkSettled tasks t < tasks.length
      · rw [if_pos hc] at h
        exact ih (t + 10) (checkSettled tasks t) t' hc h
      · rw [if_neg hc] at h
        cases h
        exact Nat.le_antisymm (checkSettled_le tasks t) (Nat.le_of_not_lt hc)

theorem checkSettled_map_ok (tasks : List BrokerTask) (t : Nat) (f : Bool → Bool) :
    checkSettled (tasks.map (fun b => { b with ok := f b.ok })) t =
      checkSettled tasks t := by
  rw [checkSettled_eq_countP, checkSettled_eq_countP, List.countP_map]
  rfl

theorem barrierLoop_map_ok (tasks : List BrokerTask) (maxWait : Nat) (f : Bool → Bool) :
    ∀ (fuel t completed : Nat),
      barrierLoop (tasks.map (fun b => { b with ok := f b.ok })) maxWait fuel t completed =
        barrierLoop tasks maxWait fuel t completed := by
  intro fuel
  induction fuel with
  | zero => intro t completed; rfl
  | succ n ih =>
    intro t completed
    simp only [barrierLoop, List.length_map, checkSettled_map_ok, ih]

/-! ### Truthiness of composed messages -/

theorem data_append_ne_nil (s t : String) (hs : s.data ≠ []) : (s ++ t).data ≠ [] := by
  rw [String.data_append]
  intro h
  exact hs (List.append_eq_nil.mp h).1

theorem truthy_some_of_data (s : String) (h : s.data ≠ []) : truthy (some s) = true := by
  have hne : s ≠ "" := fun e => h (by rw [e])
  simp [truthy, hne]

/-! ### C2 -/

/-- **C2, counterexample.**  The claim says the timeout error has the
form `"synthesis timeout after <D>s"` (so for `D = 60` it starts with
`"synthesis timeout after 60"`).  The code (`tasks_cpu.py` line 137)
writes `f"Audio synthesis timeout after {max_wait_time}s"`, which does
not start with that text. -/
theorem C2_timeout_message_cex :
    (get_presentation_job (assemble_video_with_deps
        { jobs := [jobRow 1 "synthesizing_audio" 0], tasks := [], nextTaskId := 1 }
        [] [] 1 [{ readyAt := none, ok := true }] 60 10).db 1).map
      PresentationJob.error_message = some (some "Audio synthesis timeout after 60s") ∧
    ("synthesis timeout after 60".data.isPrefixOf
      "Audio synthesis timeout after 60s".data) = false := by
  decide

/-- **C2, amended.**  When a referenced synthesis task never settles,
the barrier (given fuel covering the deadline) expires: the job is set
to `failed` with error `"Audio synthesis timeout after <D>s"` — which
contains, but does not start with, `"synthesis timeout after <D>"` — the
barrier returns, and the assembly phase is never executed. -/
theorem C2_barrier_timeout (db : DB) (store : ObjectStore) (imgs : List String)
    (jobId : Nat) (tasks : List BrokerTask) (maxWait fuel : Nat)
    (bt : BrokerTask) (hmem : bt ∈ tasks) (hnone : bt.readyAt = none)
    (hfuel : maxWait + 11 ≤ 10 * fuel)
    (j : PresentationJob) (hj : get_presentation_job db jobId = some j) :
    ((get_presentation_job
        (assemble_video_with_deps db store imgs jobId tasks maxWait fuel).db jobId).map
      PresentationJob.status = some "failed") ∧
    ((get_presentation_job
        (assemble_video_with_deps db store imgs jobId tasks maxWait fuel).db jobId).map
      PresentationJob.error_message =
        some (some ("Audio synthesis timeout after " ++ toString maxWait ++ "s"))) ∧
    (assemble_video_with_deps db store imgs jobId tasks maxWait fuel).ranAssembly = false ∧
    (assemble_video_with_deps db store imgs jobId tasks maxWait fuel).store = store := by
  have h1 : 1 ≤ fuel := by omega
  have hcomp : 0 < tasks.length :=
    List.length_pos.mpr (fun he => by simp [he] at hmem)
  obtain ⟨t', ht'⟩ := barrierLoop_timeout_of_unsettled tasks maxWait bt hmem hnone
    fuel 0 0 h1 (by omega) hcomp
  have htr : truthy (some ("Audio synthesis timeout after " ++ toString maxWait ++ "s")) = true :=
    truthy_some_of_data _ (data_append_ne_nil _ _ (data_append_ne_nil _ _ (by decide)))
  simp only [assemble_video_with_deps, ht']
  rw [get_update_job_status db jobId "failed" none
    (some ("Audio synthesis timeout after " ++ toString maxWait ++ "s")) none j hj]
  simp [htr]

/-- Witness for `C2_barrier_timeout` at a concrete run (one task that
never settles, `D = 60`). -/
theorem C2_barrier_timeout_witness :
    ((get_presentation_job
        (assemble_video_with_deps
          { jobs := [jobRow 1 "synthesizing_audio" 0], tasks := [], nextTaskId := 1 }
          [] [] 1 [{ readyAt := none, ok := true }] 60 10).db 1).map
      PresentationJob.status = some "failed") ∧
    ((get_presentation_job
        (assemble_video_with_deps
          { jobs := [jobRow 1 "synthesizing_audio" 0], tasks := [], nextTaskId := 1 }
          [] [] 1 [{ readyAt := none, ok := true }] 60 10).db 1).map
      PresentationJob.error_message =
        some (some ("Audio synthesis timeout after " ++ toString 60 ++ "s"))) ∧
    (assemble_video_with_deps
      { jobs := [jobRow 1 "synthesizing_audio" 0], tasks := [], nextTaskId := 1 }
      [] [] 1 [{ readyAt := none, ok := true }] 60 10).ranAssembly = false ∧
    (assemble_video_with_deps
      { jobs := [jobRow 1 "synthesizing_audio" 0], tasks := [], nextTaskId := 1 }
      [] [] 1 [{ readyAt := none, ok := true }] 60 10).store = [] :=
  C2_barrier_timeout
    { jobs := [jobRow 1 "synthesizing_audio" 0], tasks := [], nextTaskId := 1 }
    [] [] 1 [{ readyAt := none, ok := true }] 60 10
    { readyAt := none, ok := true } (by decide) rfl (by omega)
    (jobRow 1 "synthesizing_audio" 0) (by rfl)

/-! ### C4 -/

/-- **C4, confirmed.**  If the barrier proceeds to assembly at elapsed
time `t`, every referenced task had settled by `t` (so assembly never
runs, before the deadline, while a referenced task is unsettled); and
the run is invariant under arbitrarily rewriting the success flags of
the referenced tasks — failed synthesis counts as settled exactly like
successful synthesis and never by itself blocks the barrier. -/
theorem C4_barrier_gates_assembly (db : DB) (store : ObjectStore) (imgs : List String)
    (jobId : Nat) (tasks : List BrokerTask) (maxWait fuel t : Nat)
    (hne : 0 < tasks.length)
    (h : (assemble_video_with_deps db store imgs jobId tasks maxWait fuel).result =
      BarrierResult.proceed t) :
    (∀ bt ∈ tasks, ∃ u, bt.readyAt = some u ∧ u ≤ t) ∧
    (∀ f : Bool → Bool,
      assemble_video_with_deps db store imgs jobId
          (tasks.map (fun b => { b with ok := f b.ok })) maxWait fuel =
        assemble_video_with_deps db store imgs jobId tasks maxWait fuel) := by
  constructor
  · have hbl : barrierLoop tasks maxWait fuel 0 0 = .proceed t := by
      rcases hb : barrierLoop tasks maxWait fuel 0 0 with t0 | t0 | _
      · simp [assemble_video_with_deps, hb] at h
      · simp [assemble_video_with_deps, hb] at h
        rw [h]
      · simp [assemble_video_with_deps, hb] at h
    have hall := barrierLoop_proceed_settled tasks maxWait fuel 0 0 t hne hbl
    intro bt hbt
    have hs := checkSettled_all_of_eq tasks t hall bt hbt
    rcases hr : bt.readyAt with _ | u
    · rw [settledBy, hr] at hs; simp at hs
    · rw [settledBy, hr] at hs
      exact ⟨u, rfl, by simpa using hs⟩
  · intro f
    unfold assemble_video_with_deps
    rw [barrierLoop_map_ok]

/-- Witness for `C4_barrier_gates_assembly`: a run whose single
referenced task **failed** (`ok = false`) but settled at time 5; the
barrier proceeds at time 10. -/
theorem C4_barrier_gates_assembly_witness :
    ∃ u, ({ readyAt := some 5, ok := false } : BrokerTask).readyAt = some u ∧ u ≤ 10 :=
  (C4_barrier_gates_assembly
    { jobs := [], tasks := [], nextTaskId := 0 } [] [] 1
    [{ readyAt := some 5, ok := false }] 60 5 10 (by decide) (by decide)).1
    { readyAt := some 5, ok := false } (by decide)

/-! ### Task-row update facts -/

theorem taskUpdateRow_type (now : Nat) (sel : JobTask → Bool)
    (s p e sc : Option String) (t : JobTask) :
    (taskUpdateRow now sel s p e sc t).task_type = t.task_type := by
  unfold taskUpdateRow applyTaskStatus
  repeat first | rfl | split

theorem taskUpdateRow_celery (now : Nat) (sel : JobTask → Bool)
    (s p e : Option String) (t : JobTask) :
    (taskUpdateRow now sel s p e none t).celery_task_id = t.celery_task_id := by
  unfold taskUpdateRow applyTaskStatus
  repeat first | rfl | split

theorem countP_map_preserving {α : Type} (l : List α) (f : α → α) (q : α → Bool)
    (hf : ∀ t, q (f t) = q t) : (l.map f).countP q = l.countP q := by
  rw [List.countP_map]
  exact List.countP_congr (fun t _ => by simp [Function.comp, hf t])

theorem get_update_job_slides (db : DB) (jobId n : Nat) (j : PresentationJob)
    (h : get_presentation_job db jobId = some j) :
    get_presentation_job (update_job_slides db jobId n) jobId =
      some { j with num_slides := some n } := by
  unfold get_presentation_job update_job_slides at *
  exact find_of_map_matched _ _ (by intro a hpa; simpa using hpa) db.jobs j h

/-! ### C5 -/

/-- **C5, counterexample.**  The claim says a slide/image count mismatch
ends the job `failed` with an error containing `"Mismatch"`.  In the
code the `except` handler of `decompose_presentation` (line 101) calls
`update_job_status(db, job_id, "failed")` without an error message: the
job fails but `error_message` stays `None` (the mismatch text is only
printed).  No synthesis rows, messages, or assembly are produced — that
part holds. -/
theorem C5_mismatch_cex :
    ((get_presentation_job (decompose_presentation
        { jobs := [jobRow 1 "pending" 0], tasks := [], nextTaskId := 1 }
        [] 50 1 ["a", "b"] ["i1", "i2", "i3"]).db 1).map
      PresentationJob.status = some "failed") ∧
    ((get_presentation_job (decompose_presentation
        { jobs := [jobRow 1 "pending" 0], tasks := [], nextTaskId := 1 }
        [] 50 1 ["a", "b"] ["i1", "i2", "i3"]).db 1).map
      PresentationJob.error_message = some none) ∧
    (decompose_presentation
        { jobs := [jobRow 1 "pending" 0], tasks := [], nextTaskId := 1 }
        [] 50 1 ["a", "b"] ["i1", "i2", "i3"]).enqueuedGpu = [] ∧
    (decompose_presentation
        { jobs := [jobRow 1 "pending" 0], tasks := [], nextTaskId := 1 }
        [] 50 1 ["a", "b"] ["i1", "i2", "i3"]).scheduledAssemble = none ∧
    (decompose_presentation
        { jobs := [jobRow 1 "pending" 0], tasks := [], nextTaskId := 1 }
        [] 50 1 ["a", "b"] ["i1", "i2", "i3"]).db.tasks.countP
      (fun t => t.task_type == "audio_synthesis") = 0 := by
  decide

/-- **C5, amended.**  On a renderer/slide count mismatch the job ends
`failed` with `error_message` left unchanged (in particular `None` when
it was unset — the mismatch text is only logged, not stored), and no
`audio_synthesis` task rows are created, no GPU messages are enqueued,
and no assemble task is scheduled. -/
theorem C5_mismatch_no_fanout (db : DB) (store : ObjectStore) (now jobId : Nat)
    (slides imgs : List String) (j : PresentationJob)
    (hj : get_presentation_job db jobId = some j)
    (hmis : imgs.length ≠ slides.length) :
    ((get_presentation_job (decompose_presentation db store now jobId slides imgs).db jobId) =
      some { j with status := "failed", current_stage := some "decomposing",
                    num_slides := some slides.length }) ∧
    (decompose_presentation db store now jobId slides imgs).enqueuedGpu = [] ∧
    (decompose_presentation db store now jobId slides imgs).scheduledAssemble = none ∧
    ((decompose_presentation db store now jobId slides imgs).db.tasks.countP
        (fun t => t.task_type == "audio_synthesis") =
      db.tasks.countP (fun t => t.task_type == "audio_synthesis")) := by
  have hbne : (imgs.length != slides.length) = true := by
    simpa [bne_iff_ne] using hmis
  simp only [decompose_presentation, hj, hbne, if_true]
  refine ⟨?_, trivial, trivial, ?_⟩
  · exact (get_update_job_status _ jobId "failed" none none none _
      (get_update_job_slides _ jobId slides.length _
        (get_update_job_status _ jobId "processing_slides" none none
          (some "decomposing") j hj))).trans (by rfl)
  · show ((((db.tasks ++ _).map _).map _).countP _) = _
    rw [countP_map_preserving _ _ _ (fun t => by simp only [taskUpdateRow_type]),
      countP_map_preserving _ _ _ (fun t => by simp only [taskUpdateRow_type]),
      List.countP_append]
    simp [create_job_task]

/-- Witness for `C5_mismatch_no_fanout` at a concrete run (one-slide
deck, empty renderer answer). -/
theorem C5_mismatch_no_fanout_witness :
    ((get_presentation_job (decompose_presentation
        { jobs := [jobRow 1 "pending" 0], tasks := [], nextTaskId := 1 }
        [] 50 1 ["a"] []).db 1) =
      some ({ id := 1, status := "failed", s3_pptx_path := "/ingest/abc.pptx"
              s3_video_path := none, error_message := none, num_slides := some 1
              current_stage := some "decomposing", created_at := 0 } : PresentationJob)) ∧
    (decompose_presentation
        { jobs := [jobRow 1 "pending" 0], tasks := [], nextTaskId := 1 }
        [] 50 1 ["a"] []).enqueuedGpu = [] ∧
    (decompose_presentation
        { jobs := [jobRow 1 "pending" 0], tasks := [], nextTaskId := 1 }
        [] 50 1 ["a"] []).scheduledAssemble = none ∧
    ((decompose_presentation
        { jobs := [jobRow 1 "pending" 0], tasks := [], nextTaskId := 1 }
        [] 50 1 ["a"] []).db.tasks.countP
      (fun t => t.task_type == "audio_synthesis") =
      ([] : List JobTask).countP (fun t => t.task_type == "audio_synthesis")) :=
  C5_mismatch_no_fanout
    { jobs := [jobRow 1 "pending" 0], tasks := [], nextTaskId := 1 }
    [] 50 1 ["a"] [] (jobRow 1 "pending" 0) (by rfl) (by decide)

/-- Mapping a row function that preserves the selection predicate
commutes with looking the selected row up. -/
theorem find_of_map_preserving {α : Type} (p : α → Bool) (g : α → α)
    (hp : ∀ a, p (g a) = p a) :
    ∀ (l : List α) (x : α), l.find? p = some x → (l.map g).find? p = some (g x) := by
  intro l
  induction l with
  | nil => intro x h; simp [List.find?] at h
  | cons a l ih =>
    intro x h
    by_cases ha : p a = true
    · rw [List.find?_cons_of_pos _ ha] at h
      cases h
      rw [List.map_cons]
      exact List.find?_cons_of_pos _ (by rw [hp]; exact ha)
    · rw [List.find?_cons_of_neg _ ha] at h
      rw [List.map_cons, List.find?_cons_of_neg _ (by rw [hp]; exact ha)]
      exact ih x h

theorem find_update_task_by_celery (db : DB) (now : Nat) (cid : String)
    (s p e : Option String) (tk : JobTask)
    (h : db.tasks.find? (fun t => t.celery_task_id == some cid) = some tk) :
    (update_task_status db now none (some cid) s p e none).tasks.find?
        (fun t => t.celery_task_id == some cid) =
      some (taskUpdateRow now (taskSelector none (some cid)) s p e none tk) := by
  show (db.tasks.map (taskUpdateRow now (taskSelector none (some cid)) s p e none)).find?
      (fun t => t.celery_task_id == some cid) = _
  exact find_of_map_preserving _ _
    (fun a => by simp only [taskUpdateRow_celery]) db.tasks tk h

theorem taskUpdateRow_completed_fields (now : Nat) (sel : JobTask → Bool)
    (msg : String) (t : JobTask) (hsel : sel t = true)
    (hmsg : truthy (some msg) = true) :
    ((taskUpdateRow now sel (some "completed") (some msg) none none t).status =
      "completed") ∧
    ((taskUpdateRow now sel (some "completed") (some msg) none none t).progress_message =
      some msg) ∧
    ((taskUpdateRow now sel (some "completed") (some msg) none none t).completed_at =
      some now) := by
  have hne : ¬(msg = "") := by simpa [truthy] using hmsg
  unfold taskUpdateRow applyTaskStatus
  rw [hsel]
  simp [truthy, hne]

theorem taskUpdateRow_failed_fields (now : Nat) (sel : JobTask → Bool)
    (e : Option String) (t : JobTask) (hsel : sel t = true) :
    ((taskUpdateRow now sel (some "failed") none e none t).status = "failed") ∧
    ((taskUpdateRow now sel (some "failed") none e none t).completed_at = some now) := by
  unfold taskUpdateRow applyTaskStatus
  rw [hsel]
  rcases e with _ | es
  · simp [truthy]
  · by_cases he : truthy (some es) = true <;> simp [he, truthy] at * <;> simp [he]

/-! ### C6 -/

/-- **C6, counterexample.**  The claim says that when both synthesis
tiers raise, the worker produces a **3-second** silence and completes
the task with progress `"fallback: silence"`.  In the code the generic
handler (`tasks_gpu.py` lines 296-301) writes **5 seconds** of silence
(`torch.zeros(24000 * 5)`), and the completed task's progress is always
`f"Audio synthesis completed for slide {n}"` — the string
`"fallback: silence"` never occurs. -/
theorem C6_silence_fallback_cex :
    ((synthesize_audio
        { jobs := [jobRow 1 "synthesizing_audio" 0]
          tasks := [taskRow 1 1 "audio_synthesis" (some "t1") "pending"], nextTaskId := 2 }
        [] 77 "t1"
        { jobPresent := true, refIsBuiltin := true, refFetch := .ok ()
          noteFetch := .ok "Hello world", meloInitOk := true, tts := .error "boom"
          clone := .ok (), upload := .ok () } 1 1).uploaded =
      some (Audio.silence 120000 24000)) ∧
    (120000 ≠ 3 * 24000) ∧
    (((synthesize_audio
        { jobs := [jobRow 1 "synthesizing_audio" 0]
          tasks := [taskRow 1 1 "audio_synthesis" (some "t1") "pending"], nextTaskId := 2 }
        [] 77 "t1"
        { jobPresent := true, refIsBuiltin := true, refFetch := .ok ()
          noteFetch := .ok "Hello world", meloInitOk := true, tts := .error "boom"
          clone := .ok (), upload := .ok () } 1 1).db.tasks.find?
        (fun t => t.celery_task_id == some "t1")).map JobTask.progress_message =
      some (some "Audio synthesis completed for slide 1")) ∧
    (some "Audio synthesis completed for slide 1" ≠ some "fallback: silence") ∧
    (((synthesize_audio
        { jobs := [jobRow 1 "synthesizing_audio" 0]
          tasks := [taskRow 1 1 "audio_synthesis" (some "t1") "pending"], nextTaskId := 2 }
        [] 77 "t1"
        { jobPresent := true, refIsBuiltin := true, refFetch := .ok ()
          noteFetch := .ok "Hello world", meloInitOk := true, tts := .error "boom"
          clone := .ok (), upload := .ok () } 1 1).db.tasks.find?
        (fun t => t.celery_task_id == some "t1")).map JobTask.status =
      some "completed") := by
  decide

/-- **C6, amended.**  When the base TTS call raises (with MeloTTS
initialised), the worker produces a deterministic **5-second** silence
at 24 kHz, uploads it under the job's audio key, and marks the task
`completed` with progress `"Audio synthesis completed for slide <n>"`
(no fallback-specific progress text); `failed` arises only from an
exception escaping to the outer handler (job missing, note fetch or
upload failure, or the silence write itself). -/
theorem C6_exception_fallback (db : DB) (store : ObjectStore) (now : Nat)
    (cid : String) (env : SynthEnv) (jobId n : Nat) (s err : String)
    (hjob : env.jobPresent = true)
    (href : env.refIsBuiltin = true ∨ env.refFetch = .ok ())
    (hnote : env.noteFetch = .ok s)
    (hne : (pyStrip s == "") = false)
    (hsil : (s == "[SILENCE]") = false)
    (hmelo : env.meloInitOk = true)
    (htts : env.tts = .error err)
    (hup : env.upload = .ok ()) :
    ((synthesize_audio db store now cid env jobId n).uploaded =
      some (Audio.silence (5 * 24000) 24000)) ∧
    ((synthesize_audio db store now cid env jobId n).store =
      store ++ [("presentations", audio_object_name jobId n)]) ∧
    ∀ tk, db.tasks.find? (fun t => t.celery_task_id == some cid) = some tk →
      ∃ tk', (synthesize_audio db store now cid env jobId n).db.tasks.find?
          (fun t => t.celery_task_id == some cid) = some tk' ∧
        tk'.status = "completed" ∧
        tk'.progress_message =
          some ("Audio synthesis completed for slide " ++ toString n) ∧
        tk'.completed_at = some now := by
  have hrr : refResolve env = .ok () := by
    rcases href with hb | hr
    · simp [refResolve, hb]
    · rcases hbi : env.refIsBuiltin <;> simp [refResolve, hbi, hr]
  have hbody : synthBody env jobId = .ok (Audio.silence (5 * 24000) 24000) := by
    simp [synthBody, hjob, hrr, hnote, hne, hsil, synthInner, hmelo, htts, hup]
  simp only [synthesize_audio, hbody]
  refine ⟨trivial, trivial, ?_⟩
  intro tk htk
  have hsel0 := List.find?_some htk
  have h0 := find_update_task_by_celery db now cid (some "running")
    (some ("Starting audio synthesis for slide " ++ toString n)) none tk htk
  have h1 := find_update_task_by_celery _ now cid (some "completed")
    (some ("Audio synthesis completed for slide " ++ toString n)) none _ h0
  have hsel1 : taskSelector none (some cid)
      (taskUpdateRow now (taskSelector none (some cid)) (some "running")
        (some ("Starting audio synthesis for slide " ++ toString n)) none none tk) = true := by
    show ((taskUpdateRow now _ _ _ none none tk).celery_task_id == some cid) = true
    rw [taskUpdateRow_celery]
    exact hsel0
  have hmsg : truthy (some ("Audio synthesis completed for slide " ++ toString n)) = true :=
    truthy_some_of_data _ (data_append_ne_nil _ _ (by decide))
  obtain ⟨hst, hpr, hca⟩ := taskUpdateRow_completed_fields now
    (taskSelector none (some cid))
    ("Audio synthesis completed for slide " ++ toString n) _ hsel1 hmsg
  exact ⟨_, h1, hst, hpr, hca⟩

/-- Witness for `C6_exception_fallback` at a concrete run. -/
theorem C6_exception_fallback_witness :
    ((synthesize_audio
        { jobs := [jobRow 1 "synthesizing_audio" 0]
          tasks := [taskRow 1 1 "audio_synthesis" (some "t1") "pending"], nextTaskId := 2 }
        [] 77 "t1"
        { jobPresent := true, refIsBuiltin := true, refFetch := .ok ()
          noteFetch := .ok "Hi", meloInitOk := true, tts := .error "oom"
          clone := .ok (), upload := .ok () } 1 2).uploaded =
      some (Audio.silence (5 * 24000) 24000)) ∧
    (∃ tk', (synthesize_audio
        { jobs := [jobRow 1 "synthesizing_audio" 0]
          tasks := [taskRow 1 1 "audio_synthesis" (some "t1") "pending"], nextTaskId := 2 }
        [] 77 "t1"
        { jobPresent := true, refIsBuiltin := true, refFetch := .ok ()
          noteFetch := .ok "Hi", meloInitOk := true, tts := .error "oom"
          clone := .ok (), upload := .ok () } 1 2).db.tasks.find?
        (fun t => t.celery_task_id == some "t1") = some tk' ∧
      tk'.status = "completed" ∧
      tk'.progress_message = some ("Audio synthesis completed for slide " ++ toString 2) ∧
      tk'.completed_at = some 77) :=
  ⟨(C6_exception_fallback _ _ 77 "t1" _ 1 2 "Hi" "oom" rfl (Or.inl rfl) rfl
      (by decide) (by decide) rfl rfl rfl).1,
    (C6_exception_fallback _ _ 77 "t1" _ 1 2 "Hi" "oom" rfl (Or.inl rfl) rfl
      (by decide) (by decide) rfl rfl rfl).2.2
      (taskRow 1 1 "audio_synthesis" (some "t1") "pending") (by rfl)⟩

/-! ### C10 -/

/-- **C10, confirmed.**  Whenever an exception escapes the synthesis
body (job row absent, reference or note fetch failure, upload failure),
the outer handler marks the task `failed` (stamping `completed_at`) and
transitions the whole job to `failed` with error
`"Audio synthesis failed for slide <n>: <e>"` — one slide's
non-synthesis failure fails the entire job. -/
theorem C10_escaping_exception_fails_job (db : DB) (store : ObjectStore)
    (now : Nat) (cid : String) (env : SynthEnv) (jobId n : Nat) (e : String)
    (j : PresentationJob)
    (hbody : synthBody env jobId = .error e)
    (hj : get_presentation_job db jobId = some j) :
    (get_presentation_job (synthesize_audio db store now cid env jobId n).db jobId =
      some { j with status := "failed",
                    error_message :=
                      some ("Audio synthesis failed for slide " ++ toString n ++ ": " ++ e) }) ∧
    ((synthesize_audio db store now cid env jobId n).store = store) ∧
    ((synthesize_audio db store now cid env jobId n).uploaded = none) ∧
    ∀ tk, db.tasks.find? (fun t => t.celery_task_id == some cid) = some tk →
      ∃ tk', (synthesize_audio db store now cid env jobId n).db.tasks.find?
          (fun t => t.celery_task_id == some cid) = some tk' ∧
        tk'.status = "failed" ∧ tk'.completed_at = some now := by
  simp only [synthesize_audio, hbody]
  have htr : truthy (some ("Audio synthesis failed for slide " ++ toString n ++ ": " ++ e)) =
      true :=
    truthy_some_of_data _
      (data_append_ne_nil _ _ (data_append_ne_nil _ _ (data_append_ne_nil _ _ (by decide))))
  refine ⟨?_, trivial, trivial, ?_⟩
  · refine (get_update_job_status _ jobId "failed" none
      (some ("Audio synthesis failed for slide " ++ toString n ++ ": " ++ e)) none j hj).trans ?_
    have hne : ¬(("Audio synthesis failed for slide " ++ toString n ++ ": " ++ e) = "") := by
      simpa [truthy] using htr
    simp [truthy, hne]
  · intro tk htk
    have hsel0 := List.find?_some htk
    have h0 := find_update_task_by_celery db now cid (some "running")
      (some ("Starting audio synthesis for slide " ++ toString n)) none tk htk
    have h1 := find_update_task_by_celery _ now cid (some "failed") none (some e) _ h0
    have hsel1 : taskSelector none (some cid)
        (taskUpdateRow now (taskSelector none (some cid)) (some "running")
          (some ("Starting audio synthesis for slide " ++ toString n)) none none tk) = true := by
      show ((taskUpdateRow now _ _ _ none none tk).celery_task_id == some cid) = true
      rw [taskUpdateRow_celery]
      exact hsel0
    obtain ⟨hst, hca⟩ := taskUpdateRow_failed_fields now
      (taskSelector none (some cid)) (some e) _ hsel1
    exact ⟨_, h1, hst, hca⟩

/-- Witness for `C10_escaping_exception_fails_job`: the job row is
absent, so the body throws `"Job 9 not found."`. -/
theorem C10_escaping_exception_fails_job_witness :
    (get_presentation_job (synthesize_audio
        { jobs := [jobRow 9 "synthesizing_audio" 0]
          tasks := [taskRow 1 9 "audio_synthesis" (some "t9") "pending"], nextTaskId := 2 }
        [] 77 "t9"
        { jobPresent := false, refIsBuiltin := true, refFetch := .ok ()
          noteFetch := .ok "Hi", meloInitOk := true, tts := .ok ()
          clone := .ok (), upload := .ok () } 9 3).db 9 =
      some { jobRow 9 "synthesizing_audio" 0 with
              status := "failed",
              error_message :=
                some ("Audio synthesis failed for slide " ++ toString 3 ++ ": " ++
                  "Job 9 not found.") }) := by
  exact (C10_escaping_exception_fails_job _ _ 77 "t9" _ 9 3 "Job 9 not found."
    (jobRow 9 "synthesizing_audio" 0) (by rfl) (by rfl)).1

/-! ### C7 -/

/-- **C7, confirmed.**  `parse_note_text_tags` is a pure function whose
speed/pitch semantics match the spec: keyword speeds map to
0.7 / 1.0 / 1.3, keyword pitches to 0.8 / 1.0 / 1.2, numeric values are
clamped into [0.5, 2.0] (`[SPEED:3.0] ↦ 2.0`, `[SPEED:0.1] ↦ 0.5`), and
with no directive present both default to 1.0. -/
theorem C7_text_directives :
    (∀ t : String,
      searchTag "EMOTION" ["excited", "sad", "angry", "happy", "neutral"] false t.data = none →
      searchTag "SPEED" ["slow", "normal", "fast"] true t.data = none →
      searchTag "PITCH" ["low", "normal", "high"] true t.data = none →
      (parse_note_text_tags t).2.2 = (1, 1)) ∧
    (∀ (t : String) (v : String),
      searchTag "EMOTION" ["excited", "sad", "angry", "happy", "neutral"] false t.data = none →
      searchTag "SPEED" ["slow", "normal", "fast"] true t.data = some v →
      (parse_note_text_tags t).2.2.1 = speedOfVal v) ∧
    (∀ (t : String) (v : String),
      searchTag "EMOTION" ["excited", "sad", "angry", "happy", "neutral"] false t.data = none →
      searchTag "SPEED" ["slow", "normal", "fast"] true t.data = none →
      searchTag "PITCH" ["low", "normal", "high"] true t.data = some v →
      (parse_note_text_tags t).2.2.2 = pitchOfVal v) ∧
    speedOfVal "slow" = 7 / 10 ∧ speedOfVal "normal" = 1 ∧ speedOfVal "fast" = 13 / 10 ∧
    pitchOfVal "low" = 8 / 10 ∧ pitchOfVal "normal" = 1 ∧ pitchOfVal "high" = 12 / 10 ∧
    (∀ (v : String) (q : ℚ), pyFloat? v = some q →
      speedOfVal v = max (1 / 2) (min 2 q)) ∧
    (∀ (v : String) (q : ℚ), pyFloat? v = some q →
      pitchOfVal v = max (1 / 2) (min 2 q)) ∧
    (parse_note_text_tags "[SPEED:3.0] go").2.2.1 = 2 ∧
    (parse_note_text_tags "[SPEED:0.1] go").2.2.1 = 1 / 2 ∧
    (parse_note_text_tags "[SPEED:slow] go").2.2.1 = 7 / 10 ∧
    (parse_note_text_tags "[SPEED:fast] go").2.2.1 = 13 / 10 ∧
    (parse_note_text_tags "[PITCH:low] go").2.2.2 = 4 / 5 ∧
    (parse_note_text_tags "[PITCH:high] go").2.2.2 = 6 / 5 ∧
    (parse_note_text_tags "plain note").2.2 = (1, 1) := by
  have hmk12 : (mkRat 1 2 : ℚ) = 1 / 2 := by norm_num
  have hmk21 : (mkRat 2 1 : ℚ) = 2 := by norm_num
  have hdef : ∀ t : String,
      searchTag "EMOTION" ["excited", "sad", "angry", "happy", "neutral"] false t.data = none →
      searchTag "SPEED" ["slow", "normal", "fast"] true t.data = none →
      searchTag "PITCH" ["low", "normal", "high"] true t.data = none →
      (parse_note_text_tags t).2.2 = (1, 1) := by
    intro t h1 h2 h3
    simp [parse_note_text_tags, parse_core, h1, h2, h3]
  have hsp : ∀ (t v : String),
      searchTag "EMOTION" ["excited", "sad", "angry", "happy", "neutral"] false t.data = none →
      searchTag "SPEED" ["slow", "normal", "fast"] true t.data = some v →
      (parse_note_text_tags t).2.2.1 = speedOfVal v := by
    intro t v h1 h2
    simp [parse_note_text_tags, parse_core, h1, h2]
  have hpi : ∀ (t v : String),
      searchTag "EMOTION" ["excited", "sad", "angry", "happy", "neutral"] false t.data = none →
      searchTag "SPEED" ["slow", "normal", "fast"] true t.data = none →
      searchTag "PITCH" ["low", "normal", "high"] true t.data = some v →
      (parse_note_text_tags t).2.2.2 = pitchOfVal v := by
    intro t v h1 h2 h3
    simp [parse_note_text_tags, parse_core, h1, h2, h3]
  have hclampS : ∀ (v : String) (q : ℚ), pyFloat? v = some q →
      speedOfVal v = max (1 / 2) (min 2 q) := by
    intro v q h
    have h1 : ¬(v = "slow") := by
      intro e; rw [e] at h
      rw [show pyFloat? "slow" = none from by decide] at h
      cases h
    have h2 : ¬(v = "fast") := by
      intro e; rw [e] at h
      rw [show pyFloat? "fast" = none from by decide] at h
      cases h
    have h3 : ¬(v = "normal") := by
      intro e; rw [e] at h
      rw [show pyFloat? "normal" = none from by decide] at h
      cases h
    simp [speedOfVal, clamp05to2, h1, h2, h3, h, hmk12, hmk21]
  have hclampP : ∀ (v : String) (q : ℚ), pyFloat? v = some q →
      pitchOfVal v = max (1 / 2) (min 2 q) := by
    intro v q h
    have h1 : ¬(v = "low") := by
      intro e; rw [e] at h
      rw [show pyFloat? "low" = none from by decide] at h
      cases h
    have h2 : ¬(v = "high") := by
      intro e; rw [e] at h
      rw [show pyFloat? "high" = none from by decide] at h
      cases h
    have h3 : ¬(v = "normal") := by
      intro e; rw [e] at h
      rw [show pyFloat? "normal" = none from by decide] at h
      cases h
    simp [pitchOfVal, clamp05to2, h1, h2, h3, h, hmk12, hmk21]
  refine ⟨hdef, hsp, hpi, ?_, ?_, ?_, ?_, ?_, ?_, hclampS, hclampP,
    ?_, ?_, ?_, ?_, ?_, ?_, ?_⟩
  · rw [show speedOfVal "slow" = mkRat 7 10 from by decide]
    norm_num
  · decide
  · rw [show speedOfVal "fast" = mkRat 13 10 from by decide]
    norm_num
  · rw [show pitchOfVal "low" = mkRat 8 10 from by decide]
    norm_num
  · decide
  · rw [show pitchOfVal "high" = mkRat 12 10 from by decide]
    norm_num
  · rw [hsp "[SPEED:3.0] go" "3.0" (by decide) (by decide)]
    decide
  · rw [hsp "[SPEED:0.1] go" "0.1" (by decide) (by decide),
      show speedOfVal "0.1" = mkRat 1 2 from by decide]
    norm_num
  · rw [hsp "[SPEED:slow] go" "slow" (by decide) (by decide),
      show speedOfVal "slow" = mkRat 7 10 from by decide]
    norm_num
  · rw [hsp "[SPEED:fast] go" "fast" (by decide) (by decide),
      show speedOfVal "fast" = mkRat 13 10 from by decide]
    norm_num
  · rw [hpi "[PITCH:low] go" "low" (by decide) (by decide) (by decide),
      show pitchOfVal "low" = mkRat 8 10 from by decide]
    norm_num
  · rw [hpi "[PITCH:high] go" "high" (by decide) (by decide) (by decide),
      show pitchOfVal "high" = mkRat 12 10 from by decide]
    norm_num
  · exact hdef "plain note" (by decide) (by decide) (by decide)

/-- Witness for `C7_text_directives`: the no-directive default and the
clamp law at `v = "0.1"`. -/
theorem C7_text_directives_witness :
    (parse_note_text_tags "hi").2.2 = (1, 1) ∧
    speedOfVal "0.1" = max (1 / 2) (min 2 (mkRat 1 10)) :=
  ⟨C7_text_directives.1 "hi" (by decide) (by decide) (by decide),
    (C7_text_directives.2.2.2.2.2.2.2.2.2.1) "0.1" (mkRat 1 10) (by decide)⟩

/-! ### C8 -/

theorem revokes_foldl_mono (l : List JobTask) (x : String × String) :
    ∀ acc, x ∈ acc → x ∈ l.foldl (fun acc t =>
      match t.celery_task_id with
      | some c => acc ++ [("default", c), ("cpu", c), ("gpu", c)]
      | none => acc) acc := by
  induction l with
  | nil => intro acc h; exact h
  | cons a l ih =>
    intro acc h
    rw [List.foldl_cons]
    apply ih
    rcases ha : a.celery_task_id with _ | c
    · simpa [ha] using h
    · simp only [ha]
      exact List.mem_append_left _ h

theorem revokes_foldl_mem (l : List JobTask) :
    ∀ (acc : List (String × String)) (t : JobTask) (c : String),
      t ∈ l → t.celery_task_id = some c →
      (("default", c) ∈ l.foldl (fun acc t =>
          match t.celery_task_id with
          | some c => acc ++ [("default", c), ("cpu", c), ("gpu", c)]
          | none => acc) acc) ∧
      (("cpu", c) ∈ l.foldl (fun acc t =>
          match t.celery_task_id with
          | some c => acc ++ [("default", c), ("cpu", c), ("gpu", c)]
          | none => acc) acc) ∧
      (("gpu", c) ∈ l.foldl (fun acc t =>
          match t.celery_task_id with
          | some c => acc ++ [("default", c), ("cpu", c), ("gpu", c)]
          | none => acc) acc) := by
  induction l with
  | nil => intro acc t c h; simp at h
  | cons a l ih =>
    intro acc t c hmem hc
    rcases List.mem_cons.mp hmem with he | hl
    · subst he
      rw [List.foldl_cons]
      simp only [hc]
      refine ⟨revokes_foldl_mono l _ _ ?_, revokes_foldl_mono l _ _ ?_,
        revokes_foldl_mono l _ _ ?_⟩ <;> simp
    · rw [List.foldl_cons]
      exact ih _ t c hl hc

/-- **C8, counterexample.**  The claim says cancel marks **every**
non-terminal task of the job `cancelled` and that no assemble phase runs
afterwards.  In the code (`dashboard.py` line 203) only tasks with a
truthy `celery_task_id` are touched: the `decomposition` task row is
created without one, so after a cancel it is still `running` while the
job is `cancelled`; and the assemble barrier task has no task row at
all, so it is never revoked — run after the cancel, `assemble_video`
simply overwrites the cancelled job (here all the way to `completed`). -/
theorem C8_cancel_cex :
    ((cancel_job dbC8 100 1).toOption.map
      (fun x => x.1.tasks.map JobTask.status) = some ["running"]) ∧
    ((cancel_job dbC8 100 1).toOption.map (fun x =>
        (get_presentation_job x.1 1).map PresentationJob.status) =
      some (some "cancelled")) ∧
    ((cancel_job dbC8 100 1).toOption.map (fun x => x.2.1) = some []) ∧
    ((cancel_job dbC8 100 1).toOption.map (fun x =>
        (get_presentation_job (assemble_video x.1 [] [] 1).1 1).map
          PresentationJob.status) = some (some "completed")) := by
  decide

/-- **C8, amended.**  On a job in a non-terminal state, cancel succeeds
and: the job becomes `cancelled`; exactly those of its tasks with a
truthy Celery id and status `pending` or `running` are marked
`cancelled` with `completed_at` stamped, after a broker revoke for each
such task on all three app handles; every other task row (in particular
one without a Celery id, or a settled one) is left unchanged.  The
assemble barrier has no task row, is never revoked, and can still run
and overwrite the cancelled status afterwards. -/
theorem C8_cancel_behavior (db : DB) (now jobId : Nat) (j : PresentationJob)
    (hj : get_presentation_job db jobId = some j)
    (hterm : terminalStatuses.contains j.status = false) :
    ∃ db' revokes ids, cancel_job db now jobId = .ok (db', revokes, ids) ∧
      ((get_presentation_job db' jobId).map PresentationJob.status = some "cancelled") ∧
      (∀ t ∈ db.tasks, cancelVictim jobId t = true →
        { t with status := "cancelled", completed_at := some now } ∈ db'.tasks) ∧
      (∀ t ∈ db.tasks, cancelVictim jobId t = false → t ∈ db'.tasks) ∧
      (∀ t ∈ db.tasks, ∀ c, cancelVictim jobId t = true → t.celery_task_id = some c →
        ("default", c) ∈ revokes ∧ ("cpu", c) ∈ revokes ∧ ("gpu", c) ∈ revokes) := by
  unfold cancel_job
  rw [hj]
  simp only [hterm, Bool.false_eq_true, if_false]
  refine ⟨_, _, _, rfl, ?_, ?_, ?_, ?_⟩
  · have h2 := find_of_map_matched (fun x : PresentationJob => x.id == jobId)
      (fun x => { x with status := "cancelled", current_stage := some "cancelled" })
      (fun a hpa => by simpa using hpa) db.jobs j hj
    exact (congrArg (Option.map PresentationJob.status) h2).trans rfl
  · intro t hmem hvic
    refine List.mem_map.mpr ⟨t, hmem, ?_⟩
    rw [if_pos hvic]
  · intro t hmem hvic
    refine List.mem_map.mpr ⟨t, hmem, ?_⟩
    rw [if_neg (by rw [hvic]; exact Bool.false_ne_true)]
  · intro t hmem c hvic hc
    exact revokes_foldl_mem (db.tasks.filter (cancelVictim jobId)) [] t c
      (List.mem_filter.mpr ⟨hmem, hvic⟩) hc

/-- Witness for `C8_cancel_behavior` at a concrete store: one revocable
running task, one settled task, one id-less running task. -/
theorem C8_cancel_behavior_witness :
    ∃ db' revokes ids, cancel_job dbC8w 100 4 = .ok (db', revokes, ids) ∧
      ((get_presentation_job db' 4).map PresentationJob.status = some "cancelled") ∧
      (∀ t ∈ dbC8w.tasks, cancelVictim 4 t = true →
        { t with status := "cancelled", completed_at := some 100 } ∈ db'.tasks) ∧
      (∀ t ∈ dbC8w.tasks, cancelVictim 4 t = false → t ∈ db'.tasks) ∧
      (∀ t ∈ dbC8w.tasks, ∀ c, cancelVictim 4 t = true → t.celery_task_id = some c →
        ("default", c) ∈ revokes ∧ ("cpu", c) ∈ revokes ∧ ("gpu", c) ∈ revokes) :=
  C8_cancel_behavior dbC8w 100 4 (jobRow 4 "synthesizing_audio" 0) (by rfl) (by decide)

/-! ### C9 -/

theorem deleteFileSafe_mem (store : ObjectStore) (p : String) (k : String × String)
    (hk : k ∈ store) (hne : ¬(parseS3Path p = some k)) :
    k ∈ (deleteFileSafe store p).1 := by
  unfold deleteFileSafe
  split
  next bo hp =>
    split
    · refine List.mem_filter.mpr ⟨hk, ?_⟩
      have hkb : ¬(k = bo) := fun e => hne (by rw [hp, e])
      simp [hkb]
    · exact hk
  next hp => exact hk

theorem deletePrefixSafe_mem (store : ObjectStore) (bucket pfx : String)
    (k : String × String) (hk : k ∈ store)
    (hne : (k.1 == bucket && pfx.data.isPrefixOf k.2.data) = false) :
    k ∈ (deletePrefixSafe store bucket pfx).1 :=
  List.mem_filter.mpr ⟨hk, by simp only [hne, Bool.not_false]⟩

theorem cleanupSingleJob_store_mem (db : DB) (store : ObjectStore)
    (j : PresentationJob) (k : String × String) (hk : k ∈ store)
    (hcov : coveredBy j k = false) : k ∈ (cleanupSingleJob db store j).2.1 := by
  obtain ⟨hAB, hC⟩ := Bool.or_eq_false_iff.mp hcov
  obtain ⟨hA, hB⟩ := Bool.or_eq_false_iff.mp hAB
  have hA' : ¬(parseS3Path j.s3_pptx_path = some k) := by
    intro e; rw [e] at hA; simp at hA
  have hB' : ∀ vp, j.s3_video_path = some vp → ¬(parseS3Path vp = some k) := by
    intro vp hvp e
    rw [hvp] at hB
    simp [e] at hB
  have hfact : (k.1 == "presentations") = false ∨
      ((toString j.id ++ "/audio/").data.isPrefixOf k.2.data = false ∧
       (toString j.id ++ "/notes/").data.isPrefixOf k.2.data = false ∧
       (match pptxUuidOf j with
        | some u => (u ++ "/images/").data.isPrefixOf k.2.data ||
            (u ++ "/").data.isPrefixOf k.2.data
        | none => false) = false) := by
    rcases Bool.and_eq_false_iff.mp hC with h | h
    · exact Or.inl h
    · right
      rw [Bool.or_eq_false_iff, Bool.or_eq_false_iff] at h
      exact ⟨h.1.1, h.1.2, h.2⟩
  have hQ1 : (k.1 == "presentations" &&
      (toString j.id ++ "/audio/").data.isPrefixOf k.2.data) = false := by
    rcases hfact with h | h
    · rw [h, Bool.false_and]
    · rw [h.1, Bool.and_false]
  have hQ2 : (k.1 == "presentations" &&
      (toString j.id ++ "/notes/").data.isPrefixOf k.2.data) = false := by
    rcases hfact with h | h
    · rw [h, Bool.false_and]
    · rw [h.2.1, Bool.and_false]
  have h1 : k ∈ (if j.s3_pptx_path == "" then (store, 0)
      else deleteFileSafe store j.s3_pptx_path).1 := by
    by_cases hp : (j.s3_pptx_path == "") = true
    · rw [if_pos hp]; exact hk
    · rw [if_neg hp]; exact deleteFileSafe_mem store _ k hk hA'
  have h2 : k ∈ (match j.s3_video_path with
      | some vp => if vp == "" then ((if j.s3_pptx_path == "" then (store, 0)
          else deleteFileSafe store j.s3_pptx_path).1, 0)
        else deleteFileSafe (if j.s3_pptx_path == "" then (store, 0)
          else deleteFileSafe store j.s3_pptx_path).1 vp
      | none => ((if j.s3_pptx_path == "" then (store, 0)
          else deleteFileSafe store j.s3_pptx_path).1, 0)).1 := by
    split
    next vp hv =>
      split
      · exact h1
      · exact deleteFileSafe_mem _ _ _ h1 (hB' vp hv)
    next hv => exact h1
  have g4 := deletePrefixSafe_mem _ "presentations" (toString j.id ++ "/notes/") k
    (deletePrefixSafe_mem _ "presentations" (toString j.id ++ "/audio/") k h2 hQ1) hQ2
  unfold cleanupSingleJob
  rcases hu : pptxUuidOf j with _ | u
  · exact g4
  · have h22 : ((u ++ "/images/").data.isPrefixOf k.2.data ||
        (u ++ "/").data.isPrefixOf k.2.data) = false ∨ (k.1 == "presentations") = false := by
      rcases hfact with h | h
      · exact Or.inr h
      · left
        have := h.2.2
        rw [hu] at this
        exact this
    have hQ3 : (k.1 == "presentations" &&
        (u ++ "/images/").data.isPrefixOf k.2.data) = false := by
      rcases h22 with h | h
      · rw [(Bool.or_eq_false_iff.mp h).1, Bool.and_false]
      · rw [h, Bool.false_and]
    have hQ4 : (k.1 == "presentations" &&
        (u ++ "/").data.isPrefixOf k.2.data) = false := by
      rcases h22 with h | h
      · rw [(Bool.or_eq_false_iff.mp h).2, Bool.and_false]
      · rw [h, Bool.false_and]
    exact deletePrefixSafe_mem _ "presentations" (u ++ "/") k
      (deletePrefixSafe_mem _ "presentations" (u ++ "/images/") k g4 hQ3) hQ4

theorem cleanupFold_jobs_mem (sel : List PresentationJob) :
    ∀ (acc : DB × ObjectStore × Nat × Nat) (j' : PresentationJob),
      j' ∈ acc.1.jobs → (∀ s ∈ sel, (j'.id == s.id) = false) →
      j' ∈ (sel.foldl cleanupFoldStep acc).1.jobs := by
  induction sel with
  | nil => intro acc j' h _; exact h
  | cons s sel ih =>
    intro acc j' h hne
    rw [List.foldl_cons]
    refine ih _ j' ?_ (fun x hx => hne x (List.mem_cons_of_mem s hx))
    refine List.mem_filter.mpr ⟨h, ?_⟩
    rw [hne s (List.mem_cons_self s sel), Bool.not_false]

theorem cleanupFold_store_mem (sel : List PresentationJob) :
    ∀ (acc : DB × ObjectStore × Nat × Nat) (k : String × String),
      k ∈ acc.2.1 → (∀ s ∈ sel, coveredBy s k = false) →
      k ∈ (sel.foldl cleanupFoldStep acc).2.1 := by
  induction sel with
  | nil => intro acc k h _; exact h
  | cons s sel ih =>
    intro acc k h hne
    rw [List.foldl_cons]
    refine ih _ k ?_ (fun x hx => hne x (List.mem_cons_of_mem s hx))
    exact cleanupSingleJob_store_mem acc.1 acc.2.1 s k h (hne s (List.mem_cons_self s sel))

theorem sweepPred_default_iff (cutoff : Nat) (j : PresentationJob) :
    sweepPred cutoff ["completed", "failed"] j = true ↔
      (j.created_at < cutoff ∧ (j.status = "completed" ∨ j.status = "failed")) := by
  simp [sweepPred, List.contains, or_comm]

/-- **C9, confirmed.**  With the default status filter, the retention
sweep deletes only jobs that are `completed` or `failed` **and** older
than the cutoff; every other job row survives in the relational store,
and every object whose key is not covered by a swept job's deletion
paths survives in the object store (assuming unique primary keys, as the
database guarantees). -/
theorem C9_sweep_frame (db : DB) (store : ObjectStore) (now daysOld : Nat)
    (hids : (db.jobs.map PresentationJob.id).Nodup) :
    (∀ j ∈ db.jobs,
      ¬(j.created_at < cutoffDate now daysOld ∧
          (j.status = "completed" ∨ j.status = "failed")) →
      j ∈ (cleanup_old_jobs db store now daysOld none).db.jobs) ∧
    (∀ j ∈ db.jobs, j ∉ (cleanup_old_jobs db store now daysOld none).db.jobs →
      j.created_at < cutoffDate now daysOld ∧
        (j.status = "completed" ∨ j.status = "failed")) ∧
    (∀ k ∈ store, (∀ j ∈ db.jobs,
        j.created_at < cutoffDate now daysOld →
        (j.status = "completed" ∨ j.status = "failed") →
        coveredBy j k = false) →
      k ∈ (cleanup_old_jobs db store now daysOld none).store) := by
  have hkeep : ∀ j ∈ db.jobs,
      ¬(j.created_at < cutoffDate now daysOld ∧
          (j.status = "completed" ∨ j.status = "failed")) →
      j ∈ (cleanup_old_jobs db store now daysOld none).db.jobs := by
    intro j hmem hnp
    refine cleanupFold_jobs_mem _ (db, store, 0, 0) j hmem ?_
    intro s hs
    have hs' := List.mem_filter.mp hs
    by_contra hne
    have hid : j.id = s.id := by simpa using hne
    have hjs : j = s := List.inj_on_of_nodup_map hids hmem hs'.1 hid
    exact hnp (by rw [hjs]; exact (sweepPred_default_iff _ s).mp hs'.2)
  refine ⟨hkeep, ?_, ?_⟩
  · intro j hmem hnot
    by_contra hnp
    exact hnot (hkeep j hmem hnp)
  · intro k hk hcov
    refine cleanupFold_store_mem _ (db, store, 0, 0) k hk ?_
    intro s hs
    have hs' := List.mem_filter.mp hs
    have hp := (sweepPred_default_iff _ s).mp hs'.2
    exact hcov s hs'.1 hp.1 hp.2

/-- Witness for `C9_sweep_frame` at a concrete store: an old completed
job is swept while an active job (and its artifacts) and a fresh
completed job survive. -/
theorem C9_sweep_frame_witness :
    (jobRow 2 "synthesizing_audio" 950000 ∈
      (cleanup_old_jobs
        ⟨[jobRow 1 "completed" 0, jobRow 2 "synthesizing_audio" 950000], [], 3⟩
        [("presentations", "2/audio/slide_1.wav")] 1000000 7 none).db.jobs) ∧
    (("presentations", "2/audio/slide_1.wav") ∈
      (cleanup_old_jobs
        ⟨[jobRow 1 "completed" 0, jobRow 2 "synthesizing_audio" 950000], [], 3⟩
        [("presentations", "2/audio/slide_1.wav")] 1000000 7 none).store) :=
  ⟨(C9_sweep_frame
      ⟨[jobRow 1 "completed" 0, jobRow 2 "synthesizing_audio" 950000], [], 3⟩
      [("presentations", "2/audio/slide_1.wav")] 1000000 7 (by decide)).1
      (jobRow 2 "synthesizing_audio" 950000) (by decide) (by decide),
    (C9_sweep_frame
      ⟨[jobRow 1 "completed" 0, jobRow 2 "synthesizing_audio" 950000], [], 3⟩
      [("presentations", "2/audio/slide_1.wav")] 1000000 7 (by decide)).2.2
      ("presentations", "2/audio/slide_1.wav") (by decide)
      (by
        intro j hj h1 h2
        have hj2 : j = jobRow 1 "completed" 0 ∨
            j = jobRow 2 "synthesizing_audio" 950000 := by simpa using hj
        rcases hj2 with rfl | rfl
        · decide
        · exact absurd h1 (by decide))⟩

end PptToVideo
